import Mathlib

/-!
Verification of the query-answering engine of the AgentHub backend.

The definitions below are a shallow embedding of
`app/services/powerbi_chat.py` and `app/services/db_chat.py`.
External collaborators (the language model, the Power BI
`executeQueries` endpoint, the SQL database handle, and Python's
`json.loads`) are modelled as oracle functions supplied in an
environment record; everything the Python code computes itself is
translated directly.  Python exceptions are modelled with `Except`.
-/

/-! ## Character and string helpers (models of Python `str` operations) -/

/-- Test whether `needle` is a prefix of `hay` (character lists, exact case). -/
def isPrefixChars : List Char → List Char → Bool
  | [], _ => true
  | _ :: _, [] => false
  | a :: as', b :: bs => a == b && isPrefixChars as' bs

/-- Test whether `needle` is a prefix of `hay`, comparing case-insensitively
(model of regex matching with `re.I`, ASCII case folding). -/
def isPrefixCIChars : List Char → List Char → Bool
  | [], _ => true
  | _ :: _, [] => false
  | a :: as', b :: bs => a.toLower == b.toLower && isPrefixCIChars as' bs

/-- Split a character list at the first occurrence of `needle`, returning the
part before and the part after the occurrence (model of the leftmost-match
behaviour of `re.search` on a literal). -/
def splitOnceChars (needle : List Char) : List Char → Option (List Char × List Char)
  | [] => if needle.isEmpty then some ([], []) else none
  | c :: cs =>
    if isPrefixChars needle (c :: cs) then some ([], (c :: cs).drop needle.length)
    else match splitOnceChars needle cs with
      | some (pre, post) => some (c :: pre, post)
      | none => none

/-- Python's `needle in hay` substring test. -/
def containsStr (hay needle : String) : Bool :=
  (splitOnceChars needle.toList hay.toList).isSome

/-- Split `s` at the first occurrence of `needle`, as strings. -/
def splitOnceStr (s needle : String) : Option (String × String) :=
  match splitOnceChars needle.toList s.toList with
  | some (pre, post) => some (String.mk pre, String.mk post)
  | none => none

/-- Python `str.strip()` on a string, implemented structurally on the
character list so that it evaluates by kernel reduction. -/
def String.pyStrip (s : String) : String :=
  String.mk (((s.toList.dropWhile Char.isWhitespace).reverse.dropWhile
    Char.isWhitespace).reverse)

/-- Python `str.lower()` (ASCII case folding, structural). -/
def String.pyLower (s : String) : String :=
  String.mk (s.toList.map Char.toLower)

/-- Python `str.upper()` (ASCII case folding, structural). -/
def String.pyUpper (s : String) : String :=
  String.mk (s.toList.map Char.toUpper)

/-- Splitting on newline characters, structurally. -/
def splitLinesChars : List Char → List (List Char)
  | [] => [[]]
  | c :: cs =>
    let rest := splitLinesChars cs
    if c == '\n' then [] :: rest
    else
      match rest with
      | r :: rs => (c :: r) :: rs
      | [] => [[c]]

/-- Model of Python `str.splitlines()` for newline-separated text (a
trailing empty piece is produced for a trailing newline; the only consumer
filters such lines out, so this matches the source's behaviour). -/
def String.pySplitLines (s : String) : List String :=
  (splitLinesChars s.toList).map String.mk

/-- Case-insensitive substring test: `needle in hay.lower()` with a lowercase
literal, as used by the error classifiers in `db_chat.py`. -/
def ciContains (hay needle : String) : Bool :=
  containsStr hay.pyLower needle

/-- Strip a case-insensitive literal tag from the front of a string, if
present (model of the optional `(?:dax)?` / `(?:sql)?` group of the fenced
code block regexes). -/
def stripTagCI (tag : String) (s : String) : String :=
  if isPrefixCIChars tag.toList s.toList then String.mk (s.toList.drop tag.length) else s

/-- Python `str.rstrip()`: remove trailing whitespace. -/
def strRstrip (s : String) : String :=
  String.mk (((s.toList.reverse).dropWhile Char.isWhitespace).reverse)

/-- Python word character for `\b` boundaries: `[A-Za-z0-9_]`. -/
def isWordChar (c : Char) : Bool :=
  c.isAlphanum || c == '_'

/-- Last `n` characters of a string (Python `s[-n:]` for `n > 0`). -/
def strTakeRight (s : String) (n : Nat) : String :=
  String.mk (s.toList.drop (s.toList.length - n))

/-- Left brace character (written via its code point). -/
def lbrace : Char := Char.ofNat 123

/-- Right brace character (written via its code point). -/
def rbrace : Char := Char.ofNat 125

/-! ## JSON values

Model of the values produced by Python's `json.loads`.  The loader itself
is an oracle (`loads` field of the environments below): the code under
verification never parses JSON character by character, it only consumes
the parsed value, so the parser is an external collaborator here. -/

inductive Json where
  | null : Json
  | bool : Bool → Json
  | num : Int → Json
  | str : String → Json
  | arr : List Json → Json
  | obj : List (String × Json) → Json

/-- Python truthiness of a JSON value (`bool(x)`). -/
def jtruthy : Json → Bool
  | .null => false
  | .bool b => b
  | .num n => n != 0
  | .str s => !s.isEmpty
  | .arr xs => !xs.isEmpty
  | .obj fs => !fs.isEmpty

/-- Python `a or b` on JSON values. -/
def pyOr (a b : Json) : Json :=
  if jtruthy a then a else b

/-- Python `d.get(k)` (default `None`); raises `AttributeError` when the
receiver is not a dict, exactly as CPython does. -/
def jget (j : Json) (k : String) : Except String Json :=
  match j with
  | .obj fs =>
    match fs.find? (fun p => p.1 == k) with
    | some p => .ok p.2
    | none => .ok .null
  | _ => .error ("AttributeError: object has no attribute get (key " ++ k ++ ")")

/-- Use a JSON value as a Python `str`; raises `AttributeError` when a string
method such as `.strip()` is invoked on a non-string, as CPython does. -/
def jAsStr : Json → Except String String
  | .str s => .ok s
  | _ => .error "AttributeError: object has no attribute strip"

mutual
/-- Rendering of a JSON value back to text; model of `json.dumps` for the
places the Python code serializes values (exact spacing of the real
serializer is irrelevant to every claim). -/
def jsonValDump : Json → String
  | .null => "null"
  | .bool true => "true"
  | .bool false => "false"
  | .num n => toString n
  | .str s => "\"" ++ s ++ "\""
  | .arr xs => "[" ++ String.intercalate ", " (jsonListDump xs) ++ "]"
  | .obj fs => String.mk [lbrace] ++ String.intercalate ", " (jsonObjDump fs) ++ String.mk [rbrace]

/-- Rendering of a list of JSON values. -/
def jsonListDump : List Json → List String
  | [] => []
  | x :: xs => jsonValDump x :: jsonListDump xs

/-- Rendering of the fields of a JSON object. -/
def jsonObjDump : List (String × Json) → List String
  | [] => []
  | (k, v) :: fs => ("\"" ++ k ++ "\": " ++ jsonValDump v) :: jsonObjDump fs
end

/-- Python `str(v)` on a JSON value. -/
def pyStr : Json → String
  | .null => "None"
  | .bool true => "True"
  | .bool false => "False"
  | .num n => toString n
  | .str s => s
  | .arr xs => jsonValDump (.arr xs)
  | .obj fs => jsonValDump (.obj fs)

/-- Substring from the first left brace to the last right brace, the match of
the fallback regex `\{.*\}` (dot-all, greedy) in `parse_json_maybe`. -/
def braceSpan (text : String) : Option String :=
  let cs := text.toList
  match splitOnceChars [lbrace] cs with
  | none => none
  | some (pre, _) =>
    let fromBrace := cs.drop pre.length
    let tail := (fromBrace.reverse.dropWhile (fun c => c != rbrace)).reverse
    if tail.isEmpty || tail.length < 2 then none else some (String.mk tail)

/-- Embedding of `parse_json_maybe` (powerbi_chat.py:208): try `json.loads`
on the whole text, then on the greedy `{...}` span, then give up with `{}`.
The `loads` oracle models `json.loads` (`none` = raises). -/
def parse_json_maybe (loads : String → Option Json) (text : String) : Json :=
  match loads text with
  | some j => j
  | none =>
    match braceSpan text with
    | some sub =>
      match loads sub with
      | some j => j
      | none => .obj []
    | none => .obj []

/-! ## Query extraction

Models of the regexes in `_extract_dax` (powerbi_chat.py:223) and
`_extract_sql_from_text` (db_chat.py:85). -/

/-- Match a keyword at the head of `cs`, case-insensitively, requiring a word
boundary after it (the trailing `\b` of the source regexes). -/
def matchKeywordAt (kw : List Char) (cs : List Char) : Bool :=
  isPrefixCIChars kw cs &&
    (match cs.drop kw.length with
     | [] => true
     | c :: _ => !isWordChar c)

/-- Extraction of a fenced code block: the regex
``` ```(?:tag)?\s*(.*?)\s*``` ``` with `re.S | re.I`, i.e. the text between
the first fence and the next one, with an optional case-insensitive language
tag removed and surrounding whitespace stripped. -/
def extractFenced (tag : String) (text : String) : Option String :=
  match splitOnceStr text "```" with
  | none => none
  | some (_, rest) =>
    let rest := stripTagCI tag rest
    match splitOnceStr rest "```" with
    | none => none
    | some (content, _) => some content.pyStrip

/-- Scan for the first case-insensitive `EVALUATE` with word boundaries on
both sides (`(?i)\bEVALUATE\b`), returning the suffix starting there. -/
def evalSearchAux (prev : Option Char) : List Char → Option (List Char)
  | [] => none
  | c :: cs =>
    if (match prev with | none => true | some p => !isWordChar p)
        && matchKeywordAt "evaluate".toList (c :: cs) then
      some (c :: cs)
    else evalSearchAux (some c) cs

/-- Embedding of `_extract_dax` (powerbi_chat.py:223): fenced block first,
otherwise everything from the first word-bounded `EVALUATE` onwards. -/
def extract_dax (text : String) : Option String :=
  match extractFenced "dax" text with
  | some s => some s
  | none =>
    match evalSearchAux none text.toList with
    | some suf => some (String.mk suf).pyStrip
    | none => none

/-- Statement keywords recognized by `_extract_sql_from_text`. -/
def sqlKeywords : List String :=
  ["SELECT", "WITH", "INSERT", "UPDATE", "DELETE", "CREATE", "ALTER", "DROP"]

/-- Scan for the first position where one of the SQL keywords matches
case-insensitively followed by a word boundary (the source pattern
`(?i)(SELECT|WITH|INSERT|UPDATE|DELETE|CREATE|ALTER|DROP)\b.*` has no
boundary before the keyword, so a match may start inside a longer word,
exactly as in CPython). Returns the suffix starting at the match. -/
def sqlKwSearchAux : List Char → Option (List Char)
  | [] => none
  | c :: cs =>
    if sqlKeywords.any (fun kw => matchKeywordAt kw.toList (c :: cs)) then
      some (c :: cs)
    else sqlKwSearchAux cs

/-- Embedding of `_extract_sql_from_text` (db_chat.py:85): fenced block
first, otherwise the suffix from the first keyword match, else `None`. -/
def extract_sql_from_text (text : String) : Option String :=
  match extractFenced "sql" text with
  | some s => some s
  | none =>
    match sqlKwSearchAux text.toList with
    | some suf => some (String.mk suf).pyStrip
    | none => none

/-! ## Power BI response rows and the schema snapshotter -/

/-- One result row of `executeQueries`: a JSON object. -/
abbrev Row := List (String × Json)

/-- A `tables` entry of an `executeQueries` response; `rows` may be absent. -/
structure DaxTable where
  rows : Option (List Row)

/-- A `results` entry of an `executeQueries` response. -/
structure DaxResult where
  tables : Option (List DaxTable)

/-- An `executeQueries` response body. -/
structure DaxResp where
  results : Option (List DaxResult)

/-- Embedding of `_first_table_rows` (powerbi_chat.py:234):
`resp.get("results", [{}])[0].get("tables", [{}])[0].get("rows", [])`,
including the `IndexError` CPython raises when a present list is empty. -/
def first_table_rows (resp : DaxResp) : Except String (List Row) :=
  match resp.results.getD [{ tables := none }] with
  | [] => .error "list index out of range"
  | r0 :: _ =>
    match r0.tables.getD [{ rows := none }] with
    | [] => .error "list index out of range"
    | t0 :: _ => .ok (t0.rows.getD [])

/-- Lookup of a key in a row dict. -/
def rowLookup (row : Row) (k : String) : Option Json :=
  (row.find? (fun p => p.1 == k)).map (fun p => p.2)

/-- The values `_get_any` skips: `row[k] in (None, "", [])`. -/
def isExcludedVal : Json → Bool
  | .null => true
  | .str s => s.isEmpty
  | .arr xs => xs.isEmpty
  | _ => false

/-- Embedding of `_get_any` (powerbi_chat.py:243): try each key and its
bracketed form `[k]`, skipping `None`/`""`/`[]` values. -/
def get_any (row : Row) : List String → Option Json
  | [] => none
  | k :: ks =>
    let direct :=
      match rowLookup row k with
      | some v => if isExcludedVal v then none else some v
      | none => none
    match direct with
    | some v => some v
    | none =>
      match rowLookup row ("[" ++ k ++ "]") with
      | some v => if isExcludedVal v then get_any row ks else some v
      | none => get_any row ks

/-- Embedding of `_norm` (powerbi_chat.py:254): `str(v).strip()` unless `None`. -/
def norm (v : Option Json) : Option String :=
  v.map (fun j => (pyStr j).pyStrip)

/-- Python truthiness filter on an optional string (`if name:`). -/
def optStrNonempty : Option String → Option String
  | some s => if s.isEmpty then none else some s
  | none => none

/-- Table name extracted from one `INFO.VIEW.TABLES()` row. -/
def tableNameOf (t : Row) : Option String :=
  optStrNonempty (norm (get_any t ["Name", "Table", "TableName"]))

/-- Column line built from one `INFO.VIEW.COLUMNS()` row. -/
def colLineOf (c : Row) : Option String :=
  match optStrNonempty (norm (get_any c ["Table", "TableName"])),
        optStrNonempty (norm (get_any c ["Name", "Column", "ColumnName"])) with
  | some table, some col =>
    let dtype := norm (get_any c ["DataType", "Type"])
    let dtypeStr := match dtype with | some d => d | none => ""
    some (strRstrip ("- " ++ table ++ "[" ++ col ++ "] : " ++ dtypeStr))
  | _, _ => none

/-- Measure line built from one `INFO.VIEW.MEASURES()` row. -/
def measLineOf (m : Row) : Option String :=
  match optStrNonempty (norm (get_any m ["Table", "TableName"])),
        optStrNonempty (norm (get_any m ["Name", "Measure", "MeasureName"])) with
  | some table, some name =>
    let expr := get_any m ["Expression", "DaxExpression"]
    let expr_str := match expr with | some v => pyStr v | none => ""
    let expr_short :=
      if expr_str.length > 220 then String.mk (expr_str.toList.take 220) ++ "â€¦"
      else expr_str
    some ("- " ++ table ++ "[" ++ name ++ "] = " ++ expr_short)
  | _, _ => none

/-- Relationship line built from one `INFO.VIEW.RELATIONSHIPS()` row. -/
def relLineOf (r : Row) : Option String :=
  match optStrNonempty (norm (get_any r ["FromTable"])),
        optStrNonempty (norm (get_any r ["FromColumn"])),
        optStrNonempty (norm (get_any r ["ToTable"])),
        optStrNonempty (norm (get_any r ["ToColumn"])) with
  | some ft, some fc, some tt, some tc =>
    some ("- " ++ ft ++ "[" ++ fc ++ "] -> " ++ tt ++ "[" ++ tc ++ "]")
  | _, _, _, _ => none

/-- Insertion into a sorted list of strings (code-point order, as Python). -/
def insSorted (s : String) : List String → List String
  | [] => [s]
  | x :: xs => if s ≤ x then s :: x :: xs else x :: insSorted s xs

/-- Insertion sort of strings, model of Python `sorted(...)`. -/
def sortStrings (l : List String) : List String :=
  l.foldr insSorted []

/-- Embedding of `build_schema_string` (powerbi_chat.py:259): run the four
`INFO.VIEW` structural queries, build the line-oriented snapshot, and raise
`RuntimeError` when all four produced zero usable entries.  `exec` models
`execute_dax` with the token/workspace/dataset already applied. -/
def build_schema_string (exec : String → Except String DaxResp) : Except String String :=
  match exec "EVALUATE INFO.VIEW.TABLES()" with
  | .error e => .error e
  | .ok tResp =>
  match first_table_rows tResp with
  | .error e => .error e
  | .ok tables =>
  match exec "EVALUATE INFO.VIEW.COLUMNS()" with
  | .error e => .error e
  | .ok cResp =>
  match first_table_rows cResp with
  | .error e => .error e
  | .ok cols =>
  match exec "EVALUATE INFO.VIEW.RELATIONSHIPS()" with
  | .error e => .error e
  | .ok rResp =>
  match first_table_rows rResp with
  | .error e => .error e
  | .ok rels =>
  match exec "EVALUATE INFO.VIEW.MEASURES()" with
  | .error e => .error e
  | .ok mResp =>
  match first_table_rows mResp with
  | .error e => .error e
  | .ok meas =>
    let table_names := tables.filterMap tableNameOf
    let col_lines := cols.filterMap colLineOf
    let meas_lines := meas.filterMap measLineOf
    let rel_lines := rels.filterMap relLineOf
    if table_names.isEmpty && col_lines.isEmpty && meas_lines.isEmpty && rel_lines.isEmpty then
      .error "Schema extraction produced an empty schema. INFO.VIEW returned rows but keys weren't parsed as expected."
    else
      let lines : List String :=
        ["TABLES:"] ++ (sortStrings table_names.eraseDups).map (fun n => "- " ++ n)
          ++ ["\nCOLUMNS (Table[Column] : DataType):"] ++ col_lines.take 30000
          ++ ["\nMEASURES (Table[Measure] = Expression):"] ++ meas_lines.take 12000
          ++ ["\nRELATIONSHIPS (From -> To):"] ++ rel_lines.take 12000
      .ok (String.intercalate "\n" lines).pyStrip

/-! ## Schema parsing for value resolution -/

/-- Match the tail `\s*:\s*(.+)$` of the column-line regex against `cs`,
returning the stripped third group.  Group values are only consumed
stripped by the caller, so whitespace backtracking inside the regex cannot
change the outcome. -/
def colSuffix (cs : List Char) : Option String :=
  match cs.dropWhile Char.isWhitespace with
  | c :: rest => if c == ':' && !rest.isEmpty then some (String.mk rest).pyStrip else none
  | [] => none

/-- Find the first `]` closing the lazy column group `(.+?)\]` such that the
rest of the line matches `\s*:\s*(.+)$`, backtracking the group over later
`]` characters exactly as the regex engine does. `acc` holds the group so
far, reversed. -/
def colAfterBracket : List Char → List Char → Option (String × String)
  | _, [] => none
  | acc, c :: cs =>
    if c == ']' && !acc.isEmpty then
      match colSuffix cs with
      | some dt => some (String.mk acc.reverse, dt)
      | none => colAfterBracket (c :: acc) cs
    else colAfterBracket (c :: acc) cs

/-- Find the first `[` splitting the lazy table group `(.+?)\[` such that the
remainder completes the match, backtracking over later `[` characters. -/
def tableBracketSplit : List Char → List Char → Option (String × String × String)
  | _, [] => none
  | acc, c :: cs =>
    if c == '[' && !acc.isEmpty then
      match colAfterBracket [] cs with
      | some (col, dt) => some (String.mk acc.reverse, col, dt)
      | none => tableBracketSplit (c :: acc) cs
    else tableBracketSplit (c :: acc) cs

/-- Try the greedy `\s+` of the column-line regex at widths `k, k-1, ..., 1`
(the regex engine prefers the longest whitespace run first). -/
def tryWsWidths : Nat → List Char → Option (String × String × String)
  | 0, _ => none
  | k + 1, rest =>
    match tableBracketSplit [] (rest.drop (k + 1)) with
    | some r => some r
    | none => tryWsWidths k rest

/-- Model of `re.match(r"-\s+(.+?)\[(.+?)\]\s*:\s*(.+)$", line)` from
`parse_schema_text_columns` (powerbi_chat.py:333). -/
def matchColLine (line : String) : Option (String × String × String) :=
  match line.toList with
  | '-' :: rest =>
    let wsN := (rest.takeWhile Char.isWhitespace).length
    if wsN == 0 then none else tryWsWidths wsN rest
  | _ => none

/-- Embedding of `parse_schema_text_columns` (powerbi_chat.py:326): collect
`(table, column)` pairs of columns whose declared type is `text`. -/
def parse_schema_text_columns (schema_text : String) : List (String × String) :=
  schema_text.pySplitLines |>.filterMap (fun rawLine =>
    let line := rawLine.pyStrip
    if !isPrefixChars "- ".toList line.toList then none
    else
      match matchColLine line with
      | some (t, c, d) => if d.pyLower == "text" then some (t.pyStrip, c.pyStrip) else none
      | none => none)

/-! ## Value resolution -/

/-- The exact DAX text built by `sample_distinct_values` (powerbi_chat.py:344),
after the final `.strip()`. -/
def sampleDaxQuery (table column : String) (limit : Nat) : String :=
  "EVALUATE\nTOPN(\n    " ++ toString limit ++ ",\n    DISTINCT(SELECTCOLUMNS('"
    ++ table ++ "', \"value\", '" ++ table ++ "'[" ++ column
    ++ "])),\n    [value], ASC\n)"

/-- Embedding of `sample_distinct_values` (powerbi_chat.py:342): run the
top-N distinct query; any exception yields `[]`; keep the non-blank values
as strings. -/
def sample_distinct_values (exec : String → Except String DaxResp)
    (table column : String) (limit : Nat) : List String :=
  match exec (sampleDaxQuery table column limit) with
  | .error _ => []
  | .ok resp =>
    match first_table_rows resp with
    | .error _ => []
    | .ok rows =>
      rows.filterMap (fun r =>
        match rowLookup r "value" with
        | some v =>
          match v with
          | .null => none
          | _ => if (pyStr v).pyStrip.isEmpty then none else some (pyStr v)
        | none => none)

/-- Oracle environment for the Power BI pipeline.  Each language-model call
site of the source gets its own oracle function of exactly the variables the
corresponding prompt is rendered with; `execQuery` models `execute_dax`
outside the feedback loop and `execAttempt` models the execution outcome of
the n-th feedback-loop attempt. -/
structure Env where
  loads : String → Option Json
  getToken : Except String String
  execQuery : String → Except String DaxResp
  execAttempt : Nat → String → Except String DaxResp
  valPlanLLM : String → String → String
  valResolveLLM : String → String → String
  planLLM : String → String → String
  daxLLM : String → String → String
  fixLLM : String → String → String → String → String
  answerSchemaLLM : String → String → String → String
  answerRowsLLM : String → String → String → String → String

/-- One recorded sampling call: table, column, and the requested limit. -/
abbrev SampleCall := String × String × Nat

/-- Deduplicate the merged candidate pool and cap it at 120 entries
(powerbi_chat.py:408, the `uniq`/`seen` loop). -/
def dedupCapAux : List String → List String → List String
  | [], uniq => uniq
  | v :: rest, uniq =>
    let uniq' := if uniq.contains v then uniq else uniq ++ [v]
    if 120 ≤ uniq'.length then uniq' else dedupCapAux rest uniq'

/-- Candidate pool builder used by the value resolver. -/
def dedupCap (l : List String) : List String :=
  dedupCapAux l []

/-- One step of the sampling loop over targets (powerbi_chat.py:400-405):
validate the target dict and call `sample_distinct_values` with limit 60,
recording the call.  Raises when a target is not a dict or holds non-string
fields, as the Python attribute accesses would. -/
def sampleTargetStep (env : Env) (acc : List String × List SampleCall) (t : Json) :
    Except String (List String × List SampleCall) :=
  match jget t "table" with
  | .error e => .error e
  | .ok tbJ =>
    match jAsStr (pyOr tbJ (.str "")) with
    | .error e => .error e
    | .ok tbS =>
      match jget t "column" with
      | .error e => .error e
      | .ok colJ =>
        match jAsStr (pyOr colJ (.str "")) with
        | .error e => .error e
        | .ok colS =>
          let table := tbS.pyStrip
          let col := colS.pyStrip
          if table.isEmpty || col.isEmpty then .ok acc
          else
            .ok (acc.1 ++ sample_distinct_values env.execQuery table col 60,
                 acc.2 ++ [(table, col, 60)])

/-- Sampling over the first three targets (powerbi_chat.py:399). -/
def sampleTargets (env : Env) (ts : List Json) :
    Except String (List String × List SampleCall) :=
  (ts.take 3).foldlM (sampleTargetStep env) ([], [])

/-- Replace every non-overlapping case-insensitive occurrence of `needle`
(left to right) by `repl`: model of
`re.compile(re.escape(user_value), re.I).sub(resolved, question)`.  The
fuel argument is the remaining scan length. -/
def ciReplaceAllAux (needle repl : List Char) : Nat → List Char → List Char
  | 0, cs => cs
  | _, [] => []
  | fuel + 1, c :: cs =>
    if !needle.isEmpty && isPrefixCIChars needle (c :: cs) then
      repl ++ ciReplaceAllAux needle repl fuel ((c :: cs).drop needle.length)
    else c :: ciReplaceAllAux needle repl fuel cs

/-- Case-insensitive literal replacement on strings. -/
def ciReplaceAll (hay needle repl : String) : String :=
  String.mk (ciReplaceAllAux needle.toList repl.toList hay.toList.length hay.toList)

/-- Final matching step of the value resolver (powerbi_chat.py:420-442):
ask the model to match `user_value` against the pool, then substitute or
list alternatives. -/
def resolveMatch (env : Env) (user_value rewrite_question : String)
    (uniq : List String) (trace : List SampleCall) :
    Except String ((String × String) × List SampleCall) :=
  let res_text := env.valResolveLLM user_value
    ("[" ++ String.intercalate ", " (uniq.map (fun s => "\"" ++ s ++ "\"")) ++ "]")
  let res := parse_json_maybe env.loads res_text
  match jget res "resolved" with
  | .error e => .error e
  | .ok resolvedJ =>
    match jget res "alternatives" with
    | .error e => .error e
    | .ok altsJ =>
      let alts := pyOr altsJ (.arr [])
      let altsBranch : Except String ((String × String) × List SampleCall) :=
        match alts with
        | .arr as' =>
          if as'.isEmpty then .ok ((rewrite_question, ""), trace)
          else
            match (as'.take 3).mapM jAsStr with
            | .error e => .error e
            | .ok strs =>
              .ok ((rewrite_question,
                "I found similar values for '" ++ user_value ++ "': "
                  ++ String.intercalate ", " strs
                  ++ ". If you meant one of these, tell me."), trace)
        | _ => .ok ((rewrite_question, ""), trace)
      match resolvedJ with
      | .str rs =>
        if rs.pyStrip.isEmpty then altsBranch
        else
          let resolved := rs.pyStrip
          let new_q :=
            if !user_value.isEmpty
                && containsStr rewrite_question.pyLower user_value.pyLower then
              ciReplaceAll rewrite_question user_value resolved
            else rewrite_question ++ " (value: " ++ resolved ++ ")"
          .ok ((new_q,
            "Interpreting '" ++ user_value ++ "' as '" ++ resolved ++ "'."), trace)
      | _ => altsBranch

/-- Sampling, pooling and matching tail of the value resolver
(powerbi_chat.py:398-442): collect candidates over the first three targets,
deduplicate and cap the pool, return the rewrite unchanged when the pool is
empty, otherwise run the matching step. -/
def resolveAfterPlan (env : Env) (user_value rewrite_question : String)
    (ts : List Json) : Except String ((String × String) × List SampleCall) :=
  match sampleTargets env ts with
  | .error e => .error e
  | .ok (collected, trace) =>
    let uniq := dedupCap collected
    if uniq.isEmpty then .ok ((rewrite_question, ""), trace)
    else resolveMatch env user_value rewrite_question uniq trace

/-- Embedding of `resolve_user_value_if_needed` (powerbi_chat.py:364).
Returns the possibly-rewritten question and the resolution note, plus the
trace of sampling calls issued against the live source (the trace is pure
instrumentation: the Python function performs exactly these calls). -/
def resolve_user_value_if_needed (env : Env) (schema question : String) :
    Except String ((String × String) × List SampleCall) :=
  if schema.pyStrip.isEmpty then .ok ((question, ""), [])
  else if (parse_schema_text_columns schema).isEmpty then .ok ((question, ""), [])
  else
    let plan_text := env.valPlanLLM schema question
    let plan := parse_json_maybe env.loads plan_text
    match jget plan "need_resolution" with
    | .error e => .error e
    | .ok needJ =>
      if !jtruthy needJ then
        match jget plan "rewrite_question" with
        | .error e => .error e
        | .ok rwJ =>
          match jAsStr (pyOr rwJ (.str "")) with
          | .error e => .error e
          | .ok rwS =>
            .ok ((if rwS.pyStrip.isEmpty then question else rwS.pyStrip, ""), [])
      else
        match jget plan "targets" with
        | .error e => .error e
        | .ok targetsJ =>
          let targets := pyOr targetsJ (.arr [])
          match jget plan "user_value" with
          | .error e => .error e
          | .ok uvJ =>
            match jAsStr (pyOr uvJ (.str "")) with
            | .error e => .error e
            | .ok uvS =>
              let user_value := uvS.pyStrip
              match jget plan "rewrite_question" with
              | .error e => .error e
              | .ok rwJ =>
                match jAsStr (pyOr rwJ (.str "")) with
                | .error e => .error e
                | .ok rwS =>
                  let rewrite_question := if rwS.pyStrip.isEmpty then question else rwS.pyStrip
                  if user_value.isEmpty then .ok ((rewrite_question, ""), [])
                  else
                    match targets with
                    | .arr ts =>
                      if ts.isEmpty then .ok ((rewrite_question, ""), [])
                      else resolveAfterPlan env user_value rewrite_question ts
                    | _ => .ok ((rewrite_question, ""), [])

/-! ## Execution-feedback loop -/

/-- Model of `json.dumps(rows[:200], indent=2)` for the success payload of
the feedback loop (the exact layout of the serializer is irrelevant to the
claims; the row cap is applied by the caller). -/
def jsonDumpRows (rows : List Row) : String :=
  "[" ++ String.intercalate ", "
    (rows.map (fun r =>
      String.mk [lbrace]
        ++ String.intercalate ", "
          (r.map (fun p => "\"" ++ p.1 ++ "\": " ++ jsonValDump p.2))
        ++ String.mk [rbrace]))
    ++ "]"

/-- The idiom `_extract_dax(dax_text) or dax_text.strip()` of
powerbi_chat.py:460 (Python `or` falls through on `None` and on `""`). -/
def extractDaxOrSelf (dax_text : String) : String :=
  match extract_dax dax_text with
  | some s => if s.isEmpty then dax_text.pyStrip else s
  | none => dax_text.pyStrip

/-- One iteration body plus recursion of the `for attempt in
range(max_retries + 1)` loop of `execute_with_feedback`
(powerbi_chat.py:459-477).  `left + 1` is the number of loop iterations
still available, so the source's `attempt` equals `maxr - left`; the final
`Nat` component counts how many times a query was actually executed against
the live source (pure instrumentation). -/
def ewfAux (exec : Nat → String → Except String DaxResp)
    (fix : String → String → String) (maxr : Nat) :
    Nat → String → List String → Nat → (String × String × List String) × Nat
  | 0, _, logs, cnt => (("", "Unexpected state in feedback loop", logs), cnt)
  | left + 1, dax_text, logs, cnt =>
    let dax := extractDaxOrSelf dax_text
    if dax.isEmpty || !containsStr dax.pyUpper "EVALUATE" then
      (("", dax_text, logs), cnt)
    else
      let logs' := logs ++ [dax]
      let outcome : Except String (List Row) :=
        match exec (maxr - left) dax with
        | .error e => .error e
        | .ok resp => first_table_rows resp
      match outcome with
      | .ok rows => ((dax, jsonDumpRows (rows.take 200), logs'), cnt + 1)
      | .error err =>
        if left == 0 then
          ((dax, "DAX execution error: " ++ err ++ "\n\nLast attempted DAX:\n" ++ dax,
            logs'), cnt + 1)
        else ewfAux exec fix maxr left (fix dax err) logs' (cnt + 1)

/-- Embedding of `execute_with_feedback` (powerbi_chat.py:445): returns
`(final_dax, response_text, attempt_logs)`. -/
def execute_with_feedback (exec : Nat → String → Except String DaxResp)
    (fixLLM : String → String → String → String → String)
    (schema question initial_dax_text : String) (max_retries : Nat) :
    String × String × List String :=
  (ewfAux exec (fun d e => fixLLM schema question d e) max_retries
    (max_retries + 1) initial_dax_text [] 0).1

/-- Number of live-source executions performed by `execute_with_feedback`
(instrumentation view of the same loop). -/
def ewfExecCount (exec : Nat → String → Except String DaxResp)
    (fixLLM : String → String → String → String → String)
    (schema question initial_dax_text : String) (max_retries : Nat) : Nat :=
  (ewfAux exec (fun d e => fixLLM schema question d e) max_retries
    (max_retries + 1) initial_dax_text [] 0).2

/-! ## The Power BI chat pipeline -/

/-- Result dictionary of `chat_with_powerbi` (powerbi_chat.py:512-520). -/
structure ChatResult where
  answer : String
  resolution_note : String
  action : String
  dax_attempts : List String
  final_dax : String
  error : Option String
deriving DecidableEq

/-- The module-level schema cache `_schema_cache` (powerbi_chat.py:19),
threaded explicitly through the pipeline. -/
abbrev Cache := List (String × String)

/-- Read of `_schema_cache.get(key)`. -/
def cacheGet (c : Cache) (k : String) : Option String :=
  (c.find? (fun p => p.1 == k)).map (fun p => p.2)

/-- Write of `_schema_cache[key] = value`. -/
def cacheSet (c : Cache) (k v : String) : Cache :=
  if (c.find? (fun p => p.1 == k)).isSome then
    c.map (fun p => if p.1 == k then (k, v) else p)
  else c ++ [(k, v)]

/-- Default tone for schema-based answers (powerbi_chat.py:584-602 and the
identical copy at 671-689). -/
def defaultSchemaTone : String :=
  "You are a helpful, friendly data assistant.\n\nStyle:\n- Conversational\n- Brief and precise\n- Human-friendly naming\n\nImportant presentation rules:\n- When listing tables for a user:\n  - EXCLUDE system or auto-generated date tables unless the user explicitly asks for them.\n  - Examples of system tables include tables used only for internal date handling\n    (often with long generated names).\n  - Prefer business-facing tables (facts, dimensions, entities).\n- If the user explicitly asks for \"all tables\" or \"including system tables\",\n  then include everything.\n\nGrounding:\n- Use ONLY what exists in the schema snapshot.\n- Do NOT invent tables."

/-- Default tone for row-based answers (powerbi_chat.py:639-648). -/
def defaultRowsTone : String :=
  "You are a helpful, friendly data assistant.\n\nStyle:\n- Conversational\n- Brief and precise\n- Prefer short bullets when listing\n\nGrounding:\n- Do NOT invent values.\n- Only use what appears in the response rows."

/-- Tone selection (`custom.strip() if enabled and custom else default`). -/
def toneOf (enabled : Bool) (custom : Option String) (dflt : String) : String :=
  match custom with
  | some t => if enabled && !t.isEmpty then t.pyStrip else dflt
  | none => dflt

/-- Result of the DESCRIBE (and fallback) branch of `chat_with_powerbi`
(powerbi_chat.py:579-616 and 666-703): answer from the schema, no DAX. -/
def describeResult (ansLLM : String → String → String → String)
    (schema question note : String) (ctse : Bool) (cts : Option String) :
    ChatResult :=
  { answer := (ansLLM (toneOf ctse cts defaultSchemaTone) schema question).pyStrip
    resolution_note := note
    action := "DESCRIBE"
    dax_attempts := []
    final_dax := ""
    error := none }

/-- Pipeline steps of `chat_with_powerbi` after the schema is available
(powerbi_chat.py:563-703): value resolution, planning, then the DESCRIBE /
QUERY / fallback branches. -/
def chatAfterSchema (env : Env) (cache' : Cache) (question schema : String)
    (ctse ctre : Bool) (cts ctr : Option String) :
    Except String (ChatResult × Cache) :=
  match resolve_user_value_if_needed env schema question with
  | .error e => .error e
  | .ok ((q', note), _) =>
    let plan := parse_json_maybe env.loads (env.planLLM schema q')
    match jget plan "action" with
    | .error e => .error e
    | .ok aJ =>
      match jAsStr (pyOr aJ (.str "")) with
      | .error e => .error e
      | .ok aS =>
        let action := aS.pyStrip.pyUpper
        match jget plan "dax" with
        | .error e => .error e
        | .ok dJ =>
          match jAsStr (pyOr dJ (.str "")) with
          | .error e => .error e
          | .ok dS =>
            let dax_from_plan := dS.pyStrip
            if action == "DESCRIBE" || action.isEmpty then
              .ok (describeResult env.answerSchemaLLM schema q' note ctse cts, cache')
            else if action == "QUERY" then
              let initial :=
                if !dax_from_plan.isEmpty then dax_from_plan
                else env.daxLLM schema q'
              let efr := execute_with_feedback env.execAttempt env.fixLLM
                schema q' initial 2
              let final_dax := efr.1
              let response_text := efr.2.1
              let attempts := efr.2.2
              let answer := (env.answerRowsLLM (toneOf ctre ctr defaultRowsTone) q'
                (if final_dax.isEmpty then "(no DAX executed)" else final_dax)
                response_text).pyStrip
              .ok ({ answer := answer
                     resolution_note := note
                     action := "QUERY"
                     dax_attempts := attempts
                     final_dax := final_dax
                     error := if final_dax.isEmpty then some "DAX execution failed" else none },
                   cache')
            else
              .ok (describeResult env.answerSchemaLLM schema q' note ctse cts, cache')

/-- Schema build attempt of `chat_with_powerbi` (powerbi_chat.py:533-561):
on failure return the ERROR result without touching the cache, on success
store the snapshot and continue. `failMsg` is the answer message number of
the branch taken ("Failed to load schema: " or "Failed to reload schema: "). -/
def chatBuildThen (env : Env) (cache : Cache) (key question : String)
    (ctse ctre : Bool) (cts ctr : Option String) (failMsg : String) :
    Except String (ChatResult × Cache) :=
  match build_schema_string env.execQuery with
  | .error e =>
    .ok ({ answer := failMsg ++ e
           resolution_note := ""
           action := "ERROR"
           dax_attempts := []
           final_dax := ""
           error := some e }, cache)
  | .ok s => chatAfterSchema env (cacheSet cache key s) question s ctse ctre cts ctr

/-- Embedding of `chat_with_powerbi` (powerbi_chat.py:481): token, cached
schema (a missing, empty or blank cached value triggers a rebuild), value
resolution, planner, and the three answer branches.  An uncaught Python
exception is an `Except.error`. -/
def chat_with_powerbi (env : Env) (cache : Cache)
    (question workspace_id dataset_id : String)
    (ctse ctre : Bool) (cts ctr : Option String) :
    Except String (ChatResult × Cache) :=
  match env.getToken with
  | .error e => .error e
  | .ok _token =>
    let key := workspace_id ++ ":" ++ dataset_id
    match cacheGet cache key with
    | none => chatBuildThen env cache key question ctse ctre cts ctr "Failed to load schema: "
    | some s =>
      if s.isEmpty then
        chatBuildThen env cache key question ctse ctre cts ctr "Failed to load schema: "
      else if s.pyStrip.isEmpty then
        chatBuildThen env cache key question ctse ctre cts ctr "Failed to reload schema: "
      else
        chatAfterSchema env cache question s ctse ctre cts ctr

/-! ## The SQL chat pipeline (`db_chat.py`) -/

/-- A Python exception as observed by the handlers of `chat_with_db`:
`type(e).__name__`, `str(e)`, and the text of `traceback.format_exc()`.
For exceptions raised by the code itself the traceback text is modelled as
`"Exception: " ++ message` (its last line in CPython); no claim depends on
traceback contents. -/
structure PyErr where
  ty : String
  msg : String
  tb : String
deriving DecidableEq

/-- An exception raised by `raise Exception(msg)` inside `chat_with_db`. -/
def pyEx (msg : String) : PyErr :=
  { ty := "Exception", msg := msg, tb := "Exception: " ++ msg }

/-- Result dictionary of `chat_with_db` (db_chat.py:149-157). -/
structure DbResult where
  answer : String
  resolution_note : String
  action : String
  sql_attempts : List String
  final_sql : String
  error : Option String
deriving DecidableEq

/-- Oracle environment for the SQL pipeline: database construction, the
(call-indexed) `get_table_info`, the (call-indexed) SQL-generation model
call, the answer model call, and `db.run`. -/
structure DbEnv where
  fromUri : Except PyErr Unit
  tableInfo : Nat → Except PyErr String
  llmSql : Nat → String → String → Except PyErr String
  llmAnswer : String → String → String → String → String → Except PyErr String
  dbRun : String → Except PyErr String

/-- Driver map of `build_db_uri` (db_chat.py:19-29). -/
def driverFor (database_type : String) : String :=
  let t := database_type.pyLower
  if t == "postgresql" then "postgresql"
  else if t == "postgres" then "postgresql"
  else if t == "mysql" then "mysql+pymysql"
  else if t == "mariadb" then "mysql+pymysql"
  else if t == "sqlite" then "sqlite"
  else if t == "mssql" then "mssql+pyodbc"
  else if t == "oracle" then "oracle+cx_oracle"
  else t

/-- Hex digit (uppercase) of a number below 16. -/
def hexDigit (n : Nat) : Char :=
  if n < 10 then Char.ofNat (48 + n) else Char.ofNat (55 + n)

/-- Characters `urllib.parse.quote_plus` leaves unquoted. -/
def quoteUnreserved (c : Char) : Bool :=
  c.isAlphanum || c == '_' || c == '.' || c == '-' || c == '~'

/-- Model of `urllib.parse.quote_plus`: space becomes `+`, unreserved ASCII
stays, every other byte of the UTF-8 encoding becomes `%XX`. -/
def quote_plus (s : String) : String :=
  String.join (s.toUTF8.toList.map (fun b =>
    let n := b.toNat
    let c := Char.ofNat n
    if n == 32 then "+"
    else if n < 128 && quoteUnreserved c then String.mk [c]
    else String.mk ['%', hexDigit (n / 16), hexDigit (n % 16)]))

/-- Embedding of `build_db_uri` (db_chat.py:16). -/
def build_db_uri (database_type host : String) (port : Int)
    (database username password : String) : String :=
  if database_type.pyLower == "sqlite" then "sqlite:///" ++ host
  else
    driverFor database_type ++ "://" ++ quote_plus username ++ ":"
      ++ quote_plus password ++ "@" ++ host ++ ":" ++ toString port ++ "/" ++ database

/-- The error-message classifier shared by the connection-test block
(db_chat.py:170-188), the connection `except` block (195-212) and
`get_schema` (224-241); the three copies differ only in the final fallback
message, passed here as `fallback`. -/
def classify_db_error (host : String) (port : Int) (database msg fallback : String) :
    String :=
  if ciContains msg "could not translate host name" || ciContains msg "name resolution" then
    "Could not connect to database host '" ++ host
      ++ "'. Please check if the host is correct and reachable."
  else if ciContains msg "authentication failed" || ciContains msg "password"
      || ciContains msg "access denied" then
    "Database authentication failed. Please check your username and password."
  else if ciContains msg "database"
      && (ciContains msg "does not exist" || ciContains msg "not found") then
    "Database '" ++ database ++ "' does not exist. Please check the database name."
  else if ciContains msg "connection refused" || ciContains msg "connection timeout"
      || ciContains msg "timeout" then
    "Connection to database at '" ++ host ++ ":" ++ toString port
      ++ "' was refused or timed out. Please check if the database server is running and the port is correct."
  else if ciContains msg "no module named" then
    if ciContains msg "psycopg2" || ciContains msg "psycopg" then
      "PostgreSQL driver not installed. Please install it with: pip install psycopg2-binary"
    else if ciContains msg "pymysql" then
      "MySQL driver not installed. Please install it with: pip install pymysql"
    else
      "Database driver not installed. Error: " ++ msg
  else fallback

/-- The re-raise guard of the connection `except` block (db_chat.py:192):
messages already formatted by the classifier pass through unchanged. -/
def isFormattedDbError (msg : String) : Bool :=
  containsStr msg "Could not connect" || containsStr msg "authentication failed"
    || containsStr msg "does not exist" || containsStr msg "Connection to database"
    || containsStr msg "driver not installed"

/-- Connection phase of `chat_with_db` (db_chat.py:164-212): build the
`SQLDatabase`, probe it with `get_table_info` (call index 0), classify
probe failures, and re-classify anything the outer `except` catches unless
it is already formatted. -/
def connectBlock (dbenv : DbEnv) (host : String) (port : Int) (database : String) :
    Except PyErr Unit :=
  let inner : Except PyErr Unit :=
    match dbenv.fromUri with
    | .error e => .error e
    | .ok _ =>
      match dbenv.tableInfo 0 with
      | .ok _ => .ok ()
      | .error te =>
        .error (pyEx (classify_db_error host port database te.msg
          ("Database connection error: " ++ te.msg)))
  match inner with
  | .ok _ => .ok ()
  | .error ce =>
    if isFormattedDbError ce.msg then .error ce
    else .error (pyEx (classify_db_error host port database ce.msg
      ("Database connection error: " ++ ce.msg)))

/-- The `get_schema` closure (db_chat.py:218-241), classified with the
schema-retrieval fallback; `i` is the call index of `get_table_info`. -/
def getSchemaCall (dbenv : DbEnv) (host : String) (port : Int) (database : String)
    (i : Nat) : Except PyErr String :=
  match dbenv.tableInfo i with
  | .ok s => .ok s
  | .error e =>
    .error (pyEx (classify_db_error host port database e.msg
      ("Failed to retrieve database schema: " ++ e.msg)))

/-- Embedding of `run_query` (db_chat.py:100): extract SQL from the model
output; when nothing executable is found return the text unchanged without
touching the database; execution errors become a formatted string. -/
def run_query (dbRun : String → Except PyErr String) (query_or_text : String) :
    String :=
  let sql :=
    match extract_sql_from_text query_or_text with
    | some s => s
    | none => ""
  if sql.isEmpty then query_or_text
  else
    match dbRun sql with
    | .ok result => result
    | .error e => "SQL execution error: " ++ e.msg ++ "\n\nOriginal SQL:\n" ++ sql

/-- Default tone for SQL answers (db_chat.py:255-264). -/
def defaultSqlTone : String :=
  "You are a helpful, friendly data assistant.\n\nStyle:\n- Conversational\n- Brief and precise\n- Prefer short bullets when listing\n\nGrounding:\n- Do NOT invent values.\n- Only use what appears in the SQL response."

/-- The auxiliary second SQL generation used only to populate
`sql_attempts`/`final_sql` (db_chat.py:307-314); every exception of this
block is swallowed by its bare `except`.  `get_table_info` call index 3,
SQL model call index 1. -/
def auxSqlAttempt (dbenv : DbEnv) (host : String) (port : Int)
    (database question : String) : List String × String :=
  let attempt : Except PyErr String :=
    match getSchemaCall dbenv host port database 3 with
    | .error e => .error e
    | .ok sC => dbenv.llmSql 1 sC question
  match attempt with
  | .error _ => ([], "")
  | .ok sql_result =>
    let sql_query :=
      match extract_sql_from_text sql_result with
      | some s => if s.isEmpty then sql_result.pyStrip else s
      | none => sql_result.pyStrip
    if sql_query.isEmpty then ([], "") else ([sql_query], sql_query)

/-- Body of the big `try` of `chat_with_db` (db_chat.py:159-323): connect,
run the full answer chain (`get_table_info` call 1 for SQL generation, model
call 0, `get_table_info` call 2 for the answer prompt, `run_query`, answer
model call), then the auxiliary SQL re-generation, then the result dict. -/
def chatTry (dbenv : DbEnv) (question database_type host : String) (port : Int)
    (database username password : String) (ctre : Bool) (ctr : Option String) :
    Except PyErr DbResult :=
  let _db_uri := build_db_uri database_type host port database username password
  match connectBlock dbenv host port database with
  | .error e => .error e
  | .ok _ =>
    match getSchemaCall dbenv host port database 1 with
    | .error e => .error e
    | .ok schemaA =>
      match dbenv.llmSql 0 schemaA question with
      | .error e => .error e
      | .ok sqlText =>
        match getSchemaCall dbenv host port database 2 with
        | .error e => .error e
        | .ok schemaB =>
          let response := run_query dbenv.dbRun sqlText
          let answer_tone := toneOf ctre ctr defaultSqlTone
          match dbenv.llmAnswer answer_tone schemaB question sqlText response with
          | .error e => .error e
          | .ok answer =>
            let aux := auxSqlAttempt dbenv host port database question
            .ok { answer := answer.pyStrip
                  resolution_note := ""
                  action := if aux.2.isEmpty then "DESCRIBE" else "QUERY"
                  sql_attempts := aux.1
                  final_sql := aux.2
                  error := none }

/-- The outer `except` of `chat_with_db` (db_chat.py:325-388): build the
detailed error message from the exception's type name, message and
traceback text. -/
def buildDetailedError (host : String) (port : Int) (e : PyErr) : String :=
  let error_msg := e.msg
  let error_type := e.ty
  let tb_str := e.tb
  if containsStr error_type "APIConnectionError" || ciContains error_msg "api connection" then
    "OpenAI API connection failed. This could be due to:\n- Network connectivity issues\n- OpenAI API service is temporarily unavailable\n- Firewall or proxy blocking the connection\n- Invalid or expired API key\n\nError details: " ++ error_msg
  else if containsStr error_type "APIError" || ciContains error_msg "authentication"
      || ciContains error_msg "api key" then
    "OpenAI API authentication failed. Please check:\n- Your OpenAI API key is valid and not expired\n- The API key has sufficient credits\n- The API key has the correct permissions\n\nError details: " ++ error_msg
  else if containsStr error_type "RateLimitError" || ciContains error_msg "rate limit" then
    "OpenAI API rate limit exceeded. Please:\n- Wait a few moments and try again\n- Check your OpenAI API usage limits\n- Consider upgrading your OpenAI plan\n\nError details: " ++ error_msg
  else if error_msg == "Connection error" || error_msg.pyLower == "connection error" then
    if ciContains tb_str "psycopg2" || ciContains tb_str "psycopg" then
      if ciContains tb_str "could not translate host name" then
        "Could not connect to database host '" ++ host ++ "'. Please check if the host is correct and reachable."
      else if ciContains tb_str "authentication failed" || ciContains tb_str "password" then
        "Database authentication failed. Please check your username and password."
      else if ciContains tb_str "connection refused" then
        "Connection to database at '" ++ host ++ ":" ++ toString port ++ "' was refused. Please check if the database server is running and the port is correct."
      else if ciContains tb_str "timeout" then
        "Connection to database at '" ++ host ++ ":" ++ toString port ++ "' timed out. Please check if the database server is running and accessible."
      else if ciContains tb_str "no module named" then
        "PostgreSQL driver not installed. Please install it with: pip install psycopg2-binary"
      else
        "Database connection error. Full error: " ++ strTakeRight tb_str 500
    else if ciContains tb_str "pymysql" then
      if ciContains tb_str "access denied" || ciContains tb_str "authentication" then
        "Database authentication failed. Please check your username and password."
      else if ciContains tb_str "connection refused" then
        "Connection to database at '" ++ host ++ ":" ++ toString port ++ "' was refused. Please check if the database server is running and the port is correct."
      else if ciContains tb_str "no module named" then
        "MySQL driver not installed. Please install it with: pip install pymysql"
      else
        "Database connection error. Full error: " ++ strTakeRight tb_str 500
    else
      "Database connection failed. Error type: " ++ error_type ++ ". Details: " ++ strTakeRight tb_str 500
  else
    error_type ++ ": " ++ error_msg

/-- Embedding of `chat_with_db` (db_chat.py:118): the whole body runs under
one `try`; every escaped exception becomes the ERROR result dict, so the
function is total. -/
def chat_with_db (dbenv : DbEnv) (question database_type host : String)
    (port : Int) (database username password : String)
    (ctre : Bool) (ctr : Option String) : DbResult :=
  match chatTry dbenv question database_type host port database username password ctre ctr with
  | .ok r => r
  | .error e =>
    let detailed := buildDetailedError host port e
    { answer := "An error occurred while processing your question: " ++ detailed
      resolution_note := ""
      action := "ERROR"
      sql_attempts := []
      final_sql := ""
      error := some detailed }

/-! ## General lemmas about the feedback loop -/

/-- Attempt-list length and execution count of the loop grow by at most the
number of remaining iterations. -/
theorem ewfAux_bounds (exec : Nat → String → Except String DaxResp)
    (fix : String → String → String) (maxr : Nat) :
    ∀ left dax_text logs cnt,
      ((ewfAux exec fix maxr left dax_text logs cnt).1.2.2).length ≤ logs.length + left ∧
      (ewfAux exec fix maxr left dax_text logs cnt).2 ≤ cnt + left := by
  intro left
  induction left with
  | zero =>
    intro dax_text logs cnt
    simp [ewfAux]
  | succ left ih =>
    intro dax_text logs cnt
    have key : ∀ (T : String) (L : List String) (C : Nat),
        L.length ≤ logs.length + 1 → C ≤ cnt + 1 →
        ((ewfAux exec fix maxr left T L C).1.2.2).length ≤ logs.length + (left + 1) ∧
        (ewfAux exec fix maxr left T L C).2 ≤ cnt + (left + 1) := by
      intro T L C hL hC
      obtain ⟨h1, h2⟩ := ih T L C
      constructor <;> omega
    simp only [ewfAux]
    split
    · constructor <;> simp
    · split
      · constructor <;> (simp [List.length_append])
      · split
        · constructor <;> (simp [List.length_append])
        · exact key _ _ _ (by simp) (by omega)

/-- The attempts list returned by `execute_with_feedback` with two retries
has at most three entries. -/
theorem execute_with_feedback_len_le (exec : Nat → String → Except String DaxResp)
    (fx : String → String → String → String → String) (sch q ini : String) :
    (execute_with_feedback exec fx sch q ini 2).2.2.length ≤ 3 := by
  have h := (ewfAux_bounds exec (fun d e => fx sch q d e) 2 3 ini [] 0).1
  simpa [execute_with_feedback] using h

/-- Every successful result of the post-schema pipeline carries at most
three attempts. -/
theorem chatAfterSchema_attempts_le (env : Env) (cache' : Cache)
    (question schema : String) (ctse ctre : Bool) (cts ctr : Option String)
    (rc : ChatResult × Cache)
    (h : chatAfterSchema env cache' question schema ctse ctre cts ctr = .ok rc) :
    rc.1.dax_attempts.length ≤ 3 := by
  unfold chatAfterSchema at h
  split at h
  · simp at h
  · simp only [] at h
    split at h
    · simp at h
    · split at h
      · simp at h
      · split at h
        · simp at h
        · split at h
          · simp at h
          · split at h
            · cases h
              simp [describeResult]
            · split at h
              · cases h
                exact execute_with_feedback_len_le _ _ _ _ _
              · cases h
                simp [describeResult]

/-- Every successful result of the build-then-continue path carries at most
three attempts. -/
theorem chatBuildThen_attempts_le (env : Env) (cache : Cache)
    (key question : String) (ctse ctre : Bool) (cts ctr : Option String)
    (failMsg : String) (rc : ChatResult × Cache)
    (h : chatBuildThen env cache key question ctse ctre cts ctr failMsg = .ok rc) :
    rc.1.dax_attempts.length ≤ 3 := by
  unfold chatBuildThen at h
  split at h
  · cases h
    simp
  · exact chatAfterSchema_attempts_le _ _ _ _ _ _ _ _ _ h

/-- C1: for every question routed to the QUERY path and every sequence of
execution outcomes, `execute_with_feedback` with `max_retries = 2` executes
at most 3 queries against the live source and returns at most 3 attempts;
every result dictionary surfaced by `chat_with_powerbi` likewise carries at
most 3 `dax_attempts`. -/
theorem c1_retry_bound :
    (∀ (exec : Nat → String → Except String DaxResp)
       (fixLLM : String → String → String → String → String)
       (schema question initial : String),
      (execute_with_feedback exec fixLLM schema question initial 2).2.2.length ≤ 3 ∧
      ewfExecCount exec fixLLM schema question initial 2 ≤ 3) ∧
    (∀ (env : Env) (cache : Cache) (question ws ds : String)
       (ctse ctre : Bool) (cts ctr : Option String),
      match chat_with_powerbi env cache question ws ds ctse ctre cts ctr with
      | .ok rc => rc.1.dax_attempts.length ≤ 3
      | .error _ => True) := by
  constructor
  · intro exec fixLLM schema question initial
    refine ⟨execute_with_feedback_len_le _ _ _ _ _, ?_⟩
    have h := (ewfAux_bounds exec (fun d e => fixLLM schema question d e) 2 3 initial [] 0).2
    simpa [ewfExecCount] using h
  · intro env cache question ws ds ctse ctre cts ctr
    rcases hc : chat_with_powerbi env cache question ws ds ctse ctre cts ctr with e | rc
    · trivial
    · simp only
      unfold chat_with_powerbi at hc
      split at hc
      · simp at hc
      · simp only [] at hc
        split at hc
        · exact chatBuildThen_attempts_le _ _ _ _ _ _ _ _ _ _ hc
        · split at hc
          · exact chatBuildThen_attempts_le _ _ _ _ _ _ _ _ _ _ hc
          · split at hc
            · exact chatBuildThen_attempts_le _ _ _ _ _ _ _ _ _ _ hc
            · exact chatAfterSchema_attempts_le _ _ _ _ _ _ _ _ _ hc

/-- Last element of a list extended on the right. -/
theorem getLastD_append_singleton (l : List String) (a d : String) :
    (l ++ [a]).getLastD d = a := by
  induction l generalizing d with
  | nil => rfl
  | cons x xs ih =>
    rw [List.cons_append, List.getLastD_cons]
    exact ih x

/-- One-step unfolding of the loop at a positive iteration count. -/
theorem ewfAux_succ (exec : Nat → String → Except String DaxResp)
    (fix : String → String → String) (maxr left : Nat)
    (dax_text : String) (logs : List String) (cnt : Nat) :
    ewfAux exec fix maxr (left + 1) dax_text logs cnt =
      (let dax := extractDaxOrSelf dax_text
       if dax.isEmpty || !containsStr dax.pyUpper "EVALUATE" then
         (("", dax_text, logs), cnt)
       else
         let logs' := logs ++ [dax]
         let outcome : Except String (List Row) :=
           match exec (maxr - left) dax with
           | .error e => .error e
           | .ok resp => first_table_rows resp
         match outcome with
         | .ok rows => ((dax, jsonDumpRows (rows.take 200), logs'), cnt + 1)
         | .error err =>
           if left == 0 then
             ((dax, "DAX execution error: " ++ err ++ "\n\nLast attempted DAX:\n" ++ dax,
               logs'), cnt + 1)
           else ewfAux exec fix maxr left (fix dax err) logs' (cnt + 1)) := rfl

/-- When every execution fails and extraction never gives out (the returned
query is non-empty), the loop runs through all its iterations: the attempt
list grows by exactly the remaining iteration count, the returned query is
the last attempt, and the payload is the formatted message around the error
of the final attempt, whose index is `maxr`. -/
theorem ewfAux_all_fail (exec : Nat → String → Except String DaxResp)
    (fix : String → String → String) (maxr : Nat) (E : Nat → String → String)
    (hE : ∀ n q, exec n q = .error (E n q)) :
    ∀ left dax_text logs cnt,
      (ewfAux exec fix maxr (left + 1) dax_text logs cnt).1.1.isEmpty = false →
      (ewfAux exec fix maxr (left + 1) dax_text logs cnt).1.2.2.length
          = logs.length + left + 1 ∧
      (ewfAux exec fix maxr (left + 1) dax_text logs cnt).1.1
          = ((ewfAux exec fix maxr (left + 1) dax_text logs cnt).1.2.2).getLastD "" ∧
      (ewfAux exec fix maxr (left + 1) dax_text logs cnt).1.2.1
          = "DAX execution error: "
            ++ E maxr (ewfAux exec fix maxr (left + 1) dax_text logs cnt).1.1
            ++ "\n\nLast attempted DAX:\n"
            ++ (ewfAux exec fix maxr (left + 1) dax_text logs cnt).1.1 := by
  intro left
  induction left with
  | zero =>
    intro dax_text logs cnt hne
    rw [ewfAux_succ] at hne ⊢
    cases hguard : (extractDaxOrSelf dax_text).isEmpty
        || !containsStr (extractDaxOrSelf dax_text).pyUpper "EVALUATE" with
    | true =>
      simp only [hguard, Bool.true_eq_false] at hne
      simp [hguard] at hne
      exact absurd hne (by decide)
    | false =>
      simp [hguard, hE, getLastD_append_singleton]
  | succ left ih =>
    intro dax_text logs cnt hne
    rw [ewfAux_succ] at hne ⊢
    cases hguard : (extractDaxOrSelf dax_text).isEmpty
        || !containsStr (extractDaxOrSelf dax_text).pyUpper "EVALUATE" with
    | true =>
      simp [hguard] at hne
      exact absurd hne (by decide)
    | false =>
      simp only [hguard, Bool.false_eq_true, if_false, hE] at hne ⊢
      simp only [show ((left + 1 == 0) = true) = False by simp] at hne ⊢
      simp only [ite_false] at hne ⊢
      obtain ⟨h1, h2, h3⟩ := ih _ _ _ hne
      refine ⟨?_, h2, h3⟩
      rw [h1]
      simp [List.length_append]
      omega

/-- Evaluation of `chat_with_powerbi` on the QUERY branch: with a non-blank
cached schema, a resolver outcome, and a planner answer whose `action` reads
as `"QUERY"` with a non-empty `dax` string, the result is the QUERY
dictionary built around the feedback loop's outcome. -/
theorem chat_query_eq (env : Env) (cache : Cache) (question ws ds : String)
    (ctse ctre : Bool) (cts ctr : Option String)
    (tk s q' note : String) (tr : List SampleCall)
    (htok : env.getToken = .ok tk)
    (hcache : cacheGet cache (ws ++ ":" ++ ds) = some s)
    (hs1 : s.isEmpty = false) (hs2 : s.pyStrip.isEmpty = false)
    (hres : resolve_user_value_if_needed env s question = .ok ((q', note), tr))
    (aJv dJv : Json) (aSv dSv : String)
    (hact : jget (parse_json_maybe env.loads (env.planLLM s q')) "action" = .ok aJv)
    (haS : jAsStr (pyOr aJv (.str "")) = .ok aSv)
    (hQ : aSv.pyStrip.pyUpper = "QUERY")
    (hdax : jget (parse_json_maybe env.loads (env.planLLM s q')) "dax" = .ok dJv)
    (hdS : jAsStr (pyOr dJv (.str "")) = .ok dSv)
    (hd0 : dSv.pyStrip.isEmpty = false) :
    chat_with_powerbi env cache question ws ds ctse ctre cts ctr =
      .ok ({ answer := (env.answerRowsLLM (toneOf ctre ctr defaultRowsTone) q'
               (if (execute_with_feedback env.execAttempt env.fixLLM s q' dSv.pyStrip 2).1.isEmpty
                then "(no DAX executed)"
                else (execute_with_feedback env.execAttempt env.fixLLM s q' dSv.pyStrip 2).1)
               (execute_with_feedback env.execAttempt env.fixLLM s q' dSv.pyStrip 2).2.1).pyStrip
             resolution_note := note
             action := "QUERY"
             dax_attempts := (execute_with_feedback env.execAttempt env.fixLLM s q' dSv.pyStrip 2).2.2
             final_dax := (execute_with_feedback env.execAttempt env.fixLLM s q' dSv.pyStrip 2).1
             error := if (execute_with_feedback env.execAttempt env.fixLLM s q' dSv.pyStrip 2).1.isEmpty
                      then some "DAX execution failed" else none }, cache) := by
  unfold chat_with_powerbi chatAfterSchema
  rw [htok]
  simp [hcache, hs1, hs2, hres, hact, haS, hdax, hdS, hQ, hd0]
  intro h
  exact absurd h (by decide)

/-- C2 (amended): when the planner routes to QUERY and the query fails
execution on all `max_retries + 1 = 3` allowed attempts (with every attempt
yielding an extractable query), the pipeline returns a result with
`action = "QUERY"` (not `"ERROR"`), `final_dax` equal to the third and last
attempted query, `dax_attempts` of length 3, `error = none`, and the
formatted message containing the source's last error string is passed as
the response context to the answer synthesizer instead of the `error`
field. -/
theorem c2_all_attempts_fail_amended (env : Env) (cache : Cache)
    (question ws ds : String) (ctse ctre : Bool) (cts ctr : Option String)
    (tk s q' note : String) (tr : List SampleCall)
    (htok : env.getToken = .ok tk)
    (hcache : cacheGet cache (ws ++ ":" ++ ds) = some s)
    (hs1 : s.isEmpty = false) (hs2 : s.pyStrip.isEmpty = false)
    (hres : resolve_user_value_if_needed env s question = .ok ((q', note), tr))
    (aJv dJv : Json) (aSv dSv : String)
    (hact : jget (parse_json_maybe env.loads (env.planLLM s q')) "action" = .ok aJv)
    (haS : jAsStr (pyOr aJv (.str "")) = .ok aSv)
    (hQ : aSv.pyStrip.pyUpper = "QUERY")
    (hdax : jget (parse_json_maybe env.loads (env.planLLM s q')) "dax" = .ok dJv)
    (hdS : jAsStr (pyOr dJv (.str "")) = .ok dSv)
    (hd0 : dSv.pyStrip.isEmpty = false)
    (E : Nat → String → String)
    (hE : ∀ n q, env.execAttempt n q = .error (E n q))
    (hfd : (execute_with_feedback env.execAttempt env.fixLLM s q' dSv.pyStrip 2).1.isEmpty
        = false) :
    (execute_with_feedback env.execAttempt env.fixLLM s q' dSv.pyStrip 2).2.2.length = 3 ∧
    (execute_with_feedback env.execAttempt env.fixLLM s q' dSv.pyStrip 2).1
      = ((execute_with_feedback env.execAttempt env.fixLLM s q' dSv.pyStrip 2).2.2).getLastD "" ∧
    (execute_with_feedback env.execAttempt env.fixLLM s q' dSv.pyStrip 2).2.1
      = "DAX execution error: "
        ++ E 2 (execute_with_feedback env.execAttempt env.fixLLM s q' dSv.pyStrip 2).1
        ++ "\n\nLast attempted DAX:\n"
        ++ (execute_with_feedback env.execAttempt env.fixLLM s q' dSv.pyStrip 2).1 ∧
    chat_with_powerbi env cache question ws ds ctse ctre cts ctr =
      .ok ({ answer := (env.answerRowsLLM (toneOf ctre ctr defaultRowsTone) q'
               (execute_with_feedback env.execAttempt env.fixLLM s q' dSv.pyStrip 2).1
               (execute_with_feedback env.execAttempt env.fixLLM s q' dSv.pyStrip 2).2.1).pyStrip
             resolution_note := note
             action := "QUERY"
             dax_attempts := (execute_with_feedback env.execAttempt env.fixLLM s q' dSv.pyStrip 2).2.2
             final_dax := (execute_with_feedback env.execAttempt env.fixLLM s q' dSv.pyStrip 2).1
             error := none }, cache) := by
  obtain ⟨h1, h2, h3⟩ := ewfAux_all_fail env.execAttempt
    (fun d e => env.fixLLM s q' d e) 2 E hE 2 dSv.pyStrip [] 0
    (by simpa [execute_with_feedback] using hfd)
  refine ⟨by simpa [execute_with_feedback] using h1,
          by simpa [execute_with_feedback] using h2,
          by simpa [execute_with_feedback] using h3, ?_⟩
  rw [chat_query_eq env cache question ws ds ctse ctre cts ctr tk s q' note tr
    htok hcache hs1 hs2 hres aJv dJv aSv dSv hact haS hQ hdax hdS hd0]
  simp [hfd]

/-! ## Concrete test fixtures for the all-attempts-fail scenario -/

/-- A minimal schema snapshot with one table and no text columns. -/
def schemaSales : String := "TABLES:\n- Sales"

/-- Planner output routing to QUERY with an initial DAX candidate. -/
def planTextC2 : String := "\x7b\"action\": \"QUERY\", \"dax\": \"EVALUATE ROW(1)\"\x7d"

/-- A `json.loads` oracle consistent with real JSON parsing on the strings
this fixture feeds it. -/
def loadsC2 : String → Option Json := fun t =>
  if t == planTextC2 then
    some (Json.obj [("action", Json.str "QUERY"), ("dax", Json.str "EVALUATE ROW(1)")])
  else none

/-- Environment in which every live execution fails with the same source
error and the correction model always proposes `EVALUATE ROW(2)`. -/
def envC2 : Env :=
  { loads := loadsC2
    getToken := .ok "token"
    execQuery := fun _ => .error "not used"
    execAttempt := fun _ _ => .error "Query (1, 5) evaluation error"
    valPlanLLM := fun _ _ => ""
    valResolveLLM := fun _ _ => ""
    planLLM := fun _ _ => planTextC2
    daxLLM := fun _ _ => ""
    fixLLM := fun _ _ _ _ => "EVALUATE ROW(2)"
    answerSchemaLLM := fun _ _ _ => "schema answer"
    answerRowsLLM := fun _ _ _ _ => "rows answer" }

/-- Cache already holding the snapshot for workspace `w`, dataset `d`. -/
def cacheC2 : Cache := [("w:d", schemaSales)]

/-- C2 (counterexample): with the planner routing to QUERY and all three
executions failing, the pipeline returns `action = "QUERY"` and
`error = none` — not `action = "ERROR"` with the source's error string in
`error` as the claim states; the claim is false on the code. -/
theorem c2_counterexample :
    chat_with_powerbi envC2 cacheC2 "How many sales?" "w" "d" false false none none =
      .ok ({ answer := "rows answer"
             resolution_note := ""
             action := "QUERY"
             dax_attempts := ["EVALUATE ROW(1)", "EVALUATE ROW(2)", "EVALUATE ROW(2)"]
             final_dax := "EVALUATE ROW(2)"
             error := none }, cacheC2) := by
  rfl

/-- Witness for the amended C2 theorem at the concrete fixture. -/
theorem c2_amended_witness :
    (execute_with_feedback envC2.execAttempt envC2.fixLLM schemaSales "How many sales?"
        "EVALUATE ROW(1)" 2).2.2.length = 3 ∧
    (execute_with_feedback envC2.execAttempt envC2.fixLLM schemaSales "How many sales?"
        "EVALUATE ROW(1)" 2).1
      = ((execute_with_feedback envC2.execAttempt envC2.fixLLM schemaSales "How many sales?"
        "EVALUATE ROW(1)" 2).2.2).getLastD "" ∧
    (execute_with_feedback envC2.execAttempt envC2.fixLLM schemaSales "How many sales?"
        "EVALUATE ROW(1)" 2).2.1
      = "DAX execution error: "
        ++ "Query (1, 5) evaluation error"
        ++ "\n\nLast attempted DAX:\n"
        ++ (execute_with_feedback envC2.execAttempt envC2.fixLLM schemaSales "How many sales?"
        "EVALUATE ROW(1)" 2).1 ∧
    chat_with_powerbi envC2 cacheC2 "How many sales?" "w" "d" false false none none =
      .ok ({ answer := (envC2.answerRowsLLM (toneOf false none defaultRowsTone)
               "How many sales?"
               (execute_with_feedback envC2.execAttempt envC2.fixLLM schemaSales
                 "How many sales?" "EVALUATE ROW(1)" 2).1
               (execute_with_feedback envC2.execAttempt envC2.fixLLM schemaSales
                 "How many sales?" "EVALUATE ROW(1)" 2).2.1).pyStrip
             resolution_note := ""
             action := "QUERY"
             dax_attempts := (execute_with_feedback envC2.execAttempt envC2.fixLLM schemaSales
               "How many sales?" "EVALUATE ROW(1)" 2).2.2
             final_dax := (execute_with_feedback envC2.execAttempt envC2.fixLLM schemaSales
               "How many sales?" "EVALUATE ROW(1)" 2).1
             error := none }, cacheC2) :=
  c2_all_attempts_fail_amended envC2 cacheC2 "How many sales?" "w" "d" false false none none
    "token" schemaSales "How many sales?" "" []
    rfl rfl rfl rfl rfl
    (.str "QUERY") (.str "EVALUATE ROW(1)") "QUERY" "EVALUATE ROW(1)"
    rfl rfl rfl rfl rfl rfl
    (fun _ _ => "Query (1, 5) evaluation error") (fun _ _ => rfl) rfl

/-- When no executable query can be extracted from the candidate text, the
feedback loop returns immediately with an empty final query, the raw text
as payload, an empty attempts list, and zero live executions. -/
theorem ewf_unparseable (exec : Nat → String → Except String DaxResp)
    (fx : String → String → String → String → String)
    (sch q t : String) (maxr : Nat)
    (hbad : ((extractDaxOrSelf t).isEmpty
      || !containsStr (extractDaxOrSelf t).pyUpper "EVALUATE") = true) :
    execute_with_feedback exec fx sch q t maxr = ("", t, []) ∧
    ewfExecCount exec fx sch q t maxr = 0 := by
  unfold execute_with_feedback ewfExecCount
  rw [ewfAux_succ]
  simp [hbad]

/-- C3 (amended): if no executable query can be extracted from the planner's
candidate text (no fenced block, no `EVALUATE`), the feedback loop
terminates immediately in the failed state with the raw text as payload,
consuming no retry and executing nothing against the live source; the
caller surfaces this as `action = "QUERY"` (not `"ERROR"`) with
`error = "DAX execution failed"`, and the raw model text is passed as the
response context to the answer synthesizer. -/
theorem c3_unparseable_amended (env : Env) (cache : Cache)
    (question ws ds : String) (ctse ctre : Bool) (cts ctr : Option String)
    (tk s q' note : String) (tr : List SampleCall)
    (htok : env.getToken = .ok tk)
    (hcache : cacheGet cache (ws ++ ":" ++ ds) = some s)
    (hs1 : s.isEmpty = false) (hs2 : s.pyStrip.isEmpty = false)
    (hres : resolve_user_value_if_needed env s question = .ok ((q', note), tr))
    (aJv dJv : Json) (aSv dSv : String)
    (hact : jget (parse_json_maybe env.loads (env.planLLM s q')) "action" = .ok aJv)
    (haS : jAsStr (pyOr aJv (.str "")) = .ok aSv)
    (hQ : aSv.pyStrip.pyUpper = "QUERY")
    (hdax : jget (parse_json_maybe env.loads (env.planLLM s q')) "dax" = .ok dJv)
    (hdS : jAsStr (pyOr dJv (.str "")) = .ok dSv)
    (hd0 : dSv.pyStrip.isEmpty = false)
    (hbad : ((extractDaxOrSelf dSv.pyStrip).isEmpty
      || !containsStr (extractDaxOrSelf dSv.pyStrip).pyUpper "EVALUATE") = true) :
    execute_with_feedback env.execAttempt env.fixLLM s q' dSv.pyStrip 2
      = ("", dSv.pyStrip, []) ∧
    ewfExecCount env.execAttempt env.fixLLM s q' dSv.pyStrip 2 = 0 ∧
    chat_with_powerbi env cache question ws ds ctse ctre cts ctr =
      .ok ({ answer := (env.answerRowsLLM (toneOf ctre ctr defaultRowsTone) q'
               "(no DAX executed)" dSv.pyStrip).pyStrip
             resolution_note := note
             action := "QUERY"
             dax_attempts := []
             final_dax := ""
             error := some "DAX execution failed" }, cache) ∧
    (∀ g, chat_with_powerbi { env with execAttempt := g } cache question ws ds
        ctse ctre cts ctr
      = chat_with_powerbi env cache question ws ds ctse ctre cts ctr) := by
  obtain ⟨he1, he2⟩ := ewf_unparseable env.execAttempt env.fixLLM s q' dSv.pyStrip 2 hbad
  have hmain : chat_with_powerbi env cache question ws ds ctse ctre cts ctr =
      .ok ({ answer := (env.answerRowsLLM (toneOf ctre ctr defaultRowsTone) q'
               "(no DAX executed)" dSv.pyStrip).pyStrip
             resolution_note := note
             action := "QUERY"
             dax_attempts := []
             final_dax := ""
             error := some "DAX execution failed" }, cache) := by
    rw [chat_query_eq env cache question ws ds ctse ctre cts ctr tk s q' note tr
      htok hcache hs1 hs2 hres aJv dJv aSv dSv hact haS hQ hdax hdS hd0]
    rw [he1]
    simp [show "".isEmpty = true by decide]
  refine ⟨he1, he2, hmain, ?_⟩
  intro g
  obtain ⟨hg1, _⟩ := ewf_unparseable g env.fixLLM s q' dSv.pyStrip 2 hbad
  rw [hmain]
  rw [chat_query_eq { env with execAttempt := g } cache question ws ds ctse ctre cts ctr
    tk s q' note tr htok hcache hs1 hs2 hres aJv dJv aSv dSv hact haS hQ hdax hdS hd0]
  simp [hg1, show "".isEmpty = true by decide]

/-- Planner output routing to QUERY whose candidate text holds no
executable DAX (no fence, no `EVALUATE`). -/
def planTextC3 : String := "\x7b\"action\": \"QUERY\", \"dax\": \"I cannot answer that\"\x7d"

/-- A `json.loads` oracle consistent with real JSON parsing on the strings
this fixture feeds it. -/
def loadsC3 : String → Option Json := fun t =>
  if t == planTextC3 then
    some (Json.obj [("action", Json.str "QUERY"), ("dax", Json.str "I cannot answer that")])
  else none

/-- Environment whose planner emits an unparseable query candidate. -/
def envC3 : Env :=
  { loads := loadsC3
    getToken := .ok "token"
    execQuery := fun _ => .error "not used"
    execAttempt := fun _ _ => .error "not used"
    valPlanLLM := fun _ _ => ""
    valResolveLLM := fun _ _ => ""
    planLLM := fun _ _ => planTextC3
    daxLLM := fun _ _ => ""
    fixLLM := fun _ _ _ _ => ""
    answerSchemaLLM := fun _ _ _ => "schema answer"
    answerRowsLLM := fun _ _ _ _ => "rows answer" }

/-- Cache already holding the snapshot for the C3 fixture. -/
def cacheC3 : Cache := [("w:d", schemaSales)]

/-- C3 (counterexample): with no extractable query in the candidate text the
pipeline returns `action = "QUERY"` with `error = "DAX execution failed"` —
not `action = "ERROR"` as the claim states; the claim is false on the code. -/
theorem c3_counterexample :
    chat_with_powerbi envC3 cacheC3 "List the sales" "w" "d" false false none none =
      .ok ({ answer := "rows answer"
             resolution_note := ""
             action := "QUERY"
             dax_attempts := []
             final_dax := ""
             error := some "DAX execution failed" }, cacheC3) := by
  rfl

/-- Witness for the amended C3 theorem at the concrete fixture. -/
theorem c3_amended_witness :
    execute_with_feedback envC3.execAttempt envC3.fixLLM schemaSales "List the sales"
        "I cannot answer that" 2
      = ("", "I cannot answer that", []) ∧
    ewfExecCount envC3.execAttempt envC3.fixLLM schemaSales "List the sales"
        "I cannot answer that" 2 = 0 ∧
    chat_with_powerbi envC3 cacheC3 "List the sales" "w" "d" false false none none =
      .ok ({ answer := (envC3.answerRowsLLM (toneOf false none defaultRowsTone)
               "List the sales" "(no DAX executed)" "I cannot answer that").pyStrip
             resolution_note := ""
             action := "QUERY"
             dax_attempts := []
             final_dax := ""
             error := some "DAX execution failed" }, cacheC3) ∧
    (∀ g, chat_with_powerbi { envC3 with execAttempt := g } cacheC3 "List the sales"
        "w" "d" false false none none
      = chat_with_powerbi envC3 cacheC3 "List the sales" "w" "d" false false none none) :=
  c3_unparseable_amended envC3 cacheC3 "List the sales" "w" "d" false false none none
    "token" schemaSales "List the sales" "" []
    rfl rfl rfl rfl rfl
    (.str "QUERY") (.str "I cannot answer that") "QUERY" "I cannot answer that"
    rfl rfl rfl rfl rfl rfl rfl

/-- Evaluation of `chat_with_powerbi` on the DESCRIBE and fallback branches:
whenever the planner's action does not read as `"QUERY"`, both branches
return the same schema-based DESCRIBE dictionary. -/
theorem chat_describe_eq (env : Env) (cache : Cache) (question ws ds : String)
    (ctse ctre : Bool) (cts ctr : Option String)
    (tk s q' note : String) (tr : List SampleCall)
    (htok : env.getToken = .ok tk)
    (hcache : cacheGet cache (ws ++ ":" ++ ds) = some s)
    (hs1 : s.isEmpty = false) (hs2 : s.pyStrip.isEmpty = false)
    (hres : resolve_user_value_if_needed env s question = .ok ((q', note), tr))
    (aJv dJv : Json) (aSv dSv : String)
    (hact : jget (parse_json_maybe env.loads (env.planLLM s q')) "action" = .ok aJv)
    (haS : jAsStr (pyOr aJv (.str "")) = .ok aSv)
    (hdax : jget (parse_json_maybe env.loads (env.planLLM s q')) "dax" = .ok dJv)
    (hdS : jAsStr (pyOr dJv (.str "")) = .ok dSv)
    (hNQ : (aSv.pyStrip.pyUpper == "QUERY") = false) :
    chat_with_powerbi env cache question ws ds ctse ctre cts ctr =
      .ok (describeResult env.answerSchemaLLM s q' note ctse cts, cache) := by
  unfold chat_with_powerbi chatAfterSchema
  rw [htok]
  simp [hcache, hs1, hs2, hres, hact, haS, hdax, hdS, hNQ]

/-- C4 (amended): if the planner's raw output is empty, unparseable JSON, or
its action is missing, empty, or an unrecognized string — and the `action`
and `dax` fields read back as strings (a missing field reads as `""`) —
then the pipeline takes the DESCRIBE path: the result has
`action = "DESCRIBE"`, empty `dax_attempts`, empty `final_dax`, a `none`
error, and the outcome does not depend on the feedback-loop executor at
all (no generated query is executed). -/
theorem c4_describe_default (env : Env) (cache : Cache)
    (question ws ds : String) (ctse ctre : Bool) (cts ctr : Option String)
    (tk s q' note : String) (tr : List SampleCall)
    (htok : env.getToken = .ok tk)
    (hcache : cacheGet cache (ws ++ ":" ++ ds) = some s)
    (hs1 : s.isEmpty = false) (hs2 : s.pyStrip.isEmpty = false)
    (hres : resolve_user_value_if_needed env s question = .ok ((q', note), tr))
    (aJv dJv : Json) (aSv dSv : String)
    (hact : jget (parse_json_maybe env.loads (env.planLLM s q')) "action" = .ok aJv)
    (haS : jAsStr (pyOr aJv (.str "")) = .ok aSv)
    (hdax : jget (parse_json_maybe env.loads (env.planLLM s q')) "dax" = .ok dJv)
    (hdS : jAsStr (pyOr dJv (.str "")) = .ok dSv)
    (hNQ : (aSv.pyStrip.pyUpper == "QUERY") = false) :
    chat_with_powerbi env cache question ws ds ctse ctre cts ctr =
      .ok (describeResult env.answerSchemaLLM s q' note ctse cts, cache) ∧
    (describeResult env.answerSchemaLLM s q' note ctse cts).action = "DESCRIBE" ∧
    (describeResult env.answerSchemaLLM s q' note ctse cts).dax_attempts = [] ∧
    (describeResult env.answerSchemaLLM s q' note ctse cts).final_dax = "" ∧
    (describeResult env.answerSchemaLLM s q' note ctse cts).error = none ∧
    (∀ g, chat_with_powerbi { env with execAttempt := g } cache question ws ds
        ctse ctre cts ctr
      = chat_with_powerbi env cache question ws ds ctse ctre cts ctr) := by
  have hmain := chat_describe_eq env cache question ws ds ctse ctre cts ctr
    tk s q' note tr htok hcache hs1 hs2 hres aJv dJv aSv dSv hact haS hdax hdS hNQ
  refine ⟨hmain, rfl, rfl, rfl, rfl, ?_⟩
  intro g
  have hmain' := chat_describe_eq { env with execAttempt := g } cache question ws ds
    ctse ctre cts ctr tk s q' note tr htok hcache hs1 hs2 hres aJv dJv aSv dSv
    hact haS hdax hdS hNQ
  rw [hmain, hmain']

/-- Environment whose planner replies with prose that is not JSON at all
(`json.loads` raises on every string it is given here, and the reply
contains no brace span). -/
def envC4 : Env :=
  { loads := fun _ => none
    getToken := .ok "token"
    execQuery := fun _ => .error "not used"
    execAttempt := fun _ _ => .error "not used"
    valPlanLLM := fun _ _ => ""
    valResolveLLM := fun _ _ => ""
    planLLM := fun _ _ => "I would describe the model."
    daxLLM := fun _ _ => ""
    fixLLM := fun _ _ _ _ => ""
    answerSchemaLLM := fun _ _ _ => "schema answer"
    answerRowsLLM := fun _ _ _ _ => "rows answer" }

/-- Cache already holding the snapshot for the C4 fixtures. -/
def cacheC4 : Cache := [("w:d", schemaSales)]

/-- Witness for the amended C4 theorem: unparseable planner output yields
the DESCRIBE dictionary and independence from the executor. -/
theorem c4_describe_default_witness :
    chat_with_powerbi envC4 cacheC4 "What is in this model?" "w" "d" false false none none =
      .ok (describeResult envC4.answerSchemaLLM schemaSales "What is in this model?" ""
        false none, cacheC4) ∧
    (describeResult envC4.answerSchemaLLM schemaSales "What is in this model?" ""
      false none).action = "DESCRIBE" ∧
    (describeResult envC4.answerSchemaLLM schemaSales "What is in this model?" ""
      false none).dax_attempts = [] ∧
    (describeResult envC4.answerSchemaLLM schemaSales "What is in this model?" ""
      false none).final_dax = "" ∧
    (describeResult envC4.answerSchemaLLM schemaSales "What is in this model?" ""
      false none).error = none ∧
    (∀ g, chat_with_powerbi { envC4 with execAttempt := g } cacheC4
        "What is in this model?" "w" "d" false false none none
      = chat_with_powerbi envC4 cacheC4 "What is in this model?" "w" "d"
        false false none none) :=
  c4_describe_default envC4 cacheC4 "What is in this model?" "w" "d" false false none none
    "token" schemaSales "What is in this model?" "" []
    rfl rfl rfl rfl rfl
    .null .null "" ""
    rfl rfl rfl rfl rfl

/-- Planner output that parses as JSON but carries a non-string `dax`. -/
def planTextC4x : String := "\x7b\"dax\": 5\x7d"

/-- A `json.loads` oracle consistent with real JSON parsing on the strings
this fixture feeds it. -/
def loadsC4x : String → Option Json := fun t =>
  if t == planTextC4x then some (Json.obj [("dax", Json.num 5)]) else none

/-- Environment whose planner replies `{"dax": 5}`: the action is missing,
but the `dax` field is a truthy non-string. -/
def envC4x : Env :=
  { loads := loadsC4x
    getToken := .ok "token"
    execQuery := fun _ => .error "not used"
    execAttempt := fun _ _ => .error "not used"
    valPlanLLM := fun _ _ => ""
    valResolveLLM := fun _ _ => ""
    planLLM := fun _ _ => planTextC4x
    daxLLM := fun _ _ => ""
    fixLLM := fun _ _ _ _ => ""
    answerSchemaLLM := fun _ _ _ => "schema answer"
    answerRowsLLM := fun _ _ _ _ => "rows answer" }

/-- C4 (counterexample): with planner output `{"dax": 5}` — whose action is
missing — the pipeline does not return a DESCRIBE result at all: the
`.strip()` on the non-string `dax` value raises an `AttributeError` that
propagates to the caller, so the claim as stated is false on the code. -/
theorem c4_counterexample :
    chat_with_powerbi envC4x cacheC4 "What is in this model?" "w" "d"
        false false none none
      = .error "AttributeError: object has no attribute strip" := by
  rfl

/-- C5: if a language-model call in the value-resolution path returns output
that fails to parse as JSON (so `parse_json_maybe` yields `{}`), resolution
degrades gracefully: no exception reaches the caller, the question passed
onward is the original question (for the planning call) or the benign
rewrite (for the matching call), and the resolution note is empty. -/
theorem c5_value_resolution_safety :
    (∀ (env : Env) (schema question : String),
      parse_json_maybe env.loads (env.valPlanLLM schema question) = Json.obj [] →
      resolve_user_value_if_needed env schema question = .ok ((question, ""), [])) ∧
    (∀ (env : Env) (user_value rewrite_question : String) (uniq : List String)
       (trace : List SampleCall),
      parse_json_maybe env.loads (env.valResolveLLM user_value
          ("[" ++ String.intercalate ", " (uniq.map (fun v => "\"" ++ v ++ "\"")) ++ "]"))
        = Json.obj [] →
      resolveMatch env user_value rewrite_question uniq trace
        = .ok ((rewrite_question, ""), trace)) := by
  constructor
  · intro env schema question hp
    unfold resolve_user_value_if_needed
    by_cases h1 : schema.pyStrip.isEmpty
    · simp [h1]
    · by_cases h2 : (parse_schema_text_columns schema).isEmpty
      · simp [h1, h2]
      · simp [h1, h2, hp, jget, jtruthy, pyOr, jAsStr]
        intro h
        exact absurd h (by decide)
  · intro env user_value rewrite_question uniq trace hp
    unfold resolveMatch
    simp [hp, jget, jtruthy, pyOr, jAsStr]

/-- Schema snapshot with one text column, so the resolution path is live. -/
def schemaTextCols : String :=
  "TABLES:\n- Customer\n\nCOLUMNS (Table[Column] : DataType):\n- Customer[Name] : Text"

/-- Environment whose value-resolution model calls return non-JSON prose. -/
def envC5 : Env :=
  { loads := fun _ => none
    getToken := .ok "token"
    execQuery := fun _ => .error "not used"
    execAttempt := fun _ _ => .error "not used"
    valPlanLLM := fun _ _ => "gibberish"
    valResolveLLM := fun _ _ => "gibberish"
    planLLM := fun _ _ => ""
    daxLLM := fun _ _ => ""
    fixLLM := fun _ _ _ _ => ""
    answerSchemaLLM := fun _ _ _ => "schema answer"
    answerRowsLLM := fun _ _ _ _ => "rows answer" }

/-- Witness for C5 at a concrete fixture with a live text column. -/
theorem c5_value_resolution_safety_witness :
    resolve_user_value_if_needed envC5 schemaTextCols "show orders for Jo Janx"
      = .ok (("show orders for Jo Janx", ""), []) ∧
    resolveMatch envC5 "Jo Janx" "show orders for Jo Janx" ["JO-JanX", "Acme Co"] []
      = .ok (("show orders for Jo Janx", ""), []) :=
  ⟨c5_value_resolution_safety.1 envC5 schemaTextCols "show orders for Jo Janx" rfl,
   c5_value_resolution_safety.2 envC5 "Jo Janx" "show orders for Jo Janx"
     ["JO-JanX", "Acme Co"] [] rfl⟩

/-- The `RuntimeError` message of `build_schema_string` when all four
structural queries produced zero usable entries (powerbi_chat.py:305-307). -/
def emptySchemaMsg : String :=
  "Schema extraction produced an empty schema. INFO.VIEW returned rows but keys weren't parsed as expected."

/-- C6: if all four structural extraction queries yield zero usable entries,
building the snapshot is a hard failure; the cycle returns `action="ERROR"`
and the cache is left untouched (so it is never populated with the empty
snapshot); and a blank/whitespace-only cached value is treated as a cache
miss: the pipeline re-runs extraction instead of reusing it, surfacing the
rebuild's failure as the reload error. -/
theorem c6_empty_schema_hard_failure :
    (∀ (exec : String → Except String DaxResp) (tResp cResp rResp mResp : DaxResp)
       (tRows cRows rRows mRows : List Row),
      exec "EVALUATE INFO.VIEW.TABLES()" = .ok tResp →
      first_table_rows tResp = .ok tRows →
      exec "EVALUATE INFO.VIEW.COLUMNS()" = .ok cResp →
      first_table_rows cResp = .ok cRows →
      exec "EVALUATE INFO.VIEW.RELATIONSHIPS()" = .ok rResp →
      first_table_rows rResp = .ok rRows →
      exec "EVALUATE INFO.VIEW.MEASURES()" = .ok mResp →
      first_table_rows mResp = .ok mRows →
      tRows.filterMap tableNameOf = [] →
      cRows.filterMap colLineOf = [] →
      mRows.filterMap measLineOf = [] →
      rRows.filterMap relLineOf = [] →
      build_schema_string exec = .error emptySchemaMsg) ∧
    (∀ (env : Env) (cache : Cache) (question ws ds : String)
       (ctse ctre : Bool) (cts ctr : Option String) (tk m : String),
      env.getToken = .ok tk →
      cacheGet cache (ws ++ ":" ++ ds) = none →
      build_schema_string env.execQuery = .error m →
      chat_with_powerbi env cache question ws ds ctse ctre cts ctr =
        .ok ({ answer := "Failed to load schema: " ++ m
               resolution_note := ""
               action := "ERROR"
               dax_attempts := []
               final_dax := ""
               error := some m }, cache)) ∧
    (∀ (env : Env) (cache : Cache) (question ws ds : String)
       (ctse ctre : Bool) (cts ctr : Option String) (tk s m : String),
      env.getToken = .ok tk →
      cacheGet cache (ws ++ ":" ++ ds) = some s →
      s.isEmpty = false → s.pyStrip.isEmpty = true →
      build_schema_string env.execQuery = .error m →
      chat_with_powerbi env cache question ws ds ctse ctre cts ctr =
        .ok ({ answer := "Failed to reload schema: " ++ m
               resolution_note := ""
               action := "ERROR"
               dax_attempts := []
               final_dax := ""
               error := some m }, cache)) := by
  refine ⟨?_, ?_, ?_⟩
  · intro exec tResp cResp rResp mResp tRows cRows rRows mRows
      h1 h2 h3 h4 h5 h6 h7 h8 hT hC hM hR
    unfold build_schema_string
    simp [h1, h2, h3, h4, h5, h6, h7, h8, hT, hC, hM, hR, emptySchemaMsg]
  · intro env cache question ws ds ctse ctre cts ctr tk m htok hmiss hbuild
    unfold chat_with_powerbi chatBuildThen
    rw [htok]
    simp [hmiss, hbuild]
  · intro env cache question ws ds ctse ctre cts ctr tk s m htok hcache hs1 hs2 hbuild
    unfold chat_with_powerbi chatBuildThen
    rw [htok]
    simp [hcache, hs1, hs2, hbuild]

/-- An `executeQueries` response holding one table with zero rows. -/
def respNoRows : DaxResp :=
  { results := some [{ tables := some [{ rows := some [] }] }] }

/-- Environment whose four structural queries all return zero rows. -/
def envC6 : Env :=
  { loads := fun _ => none
    getToken := .ok "token"
    execQuery := fun _ => .ok respNoRows
    execAttempt := fun _ _ => .error "not used"
    valPlanLLM := fun _ _ => ""
    valResolveLLM := fun _ _ => ""
    planLLM := fun _ _ => ""
    daxLLM := fun _ _ => ""
    fixLLM := fun _ _ _ _ => ""
    answerSchemaLLM := fun _ _ _ => "schema answer"
    answerRowsLLM := fun _ _ _ _ => "rows answer" }

/-- Cache holding a whitespace-only snapshot for the C6 fixture. -/
def cacheBlankC6 : Cache := [("w:d", " ")]

/-- Witness for C6: zero usable entries make the build fail; a cold cache
stays untouched with an ERROR result; a blank cached value triggers a
re-extraction whose failure surfaces as the reload error. -/
theorem c6_empty_schema_hard_failure_witness :
    build_schema_string envC6.execQuery = .error emptySchemaMsg ∧
    chat_with_powerbi envC6 [] "What is in this model?" "w" "d" false false none none =
      .ok ({ answer := "Failed to load schema: " ++ emptySchemaMsg
             resolution_note := ""
             action := "ERROR"
             dax_attempts := []
             final_dax := ""
             error := some emptySchemaMsg }, []) ∧
    chat_with_powerbi envC6 cacheBlankC6 "What is in this model?" "w" "d"
        false false none none =
      .ok ({ answer := "Failed to reload schema: " ++ emptySchemaMsg
             resolution_note := ""
             action := "ERROR"
             dax_attempts := []
             final_dax := ""
             error := some emptySchemaMsg }, cacheBlankC6) := by
  have hbuild := c6_empty_schema_hard_failure.1 envC6.execQuery
    respNoRows respNoRows respNoRows respNoRows [] [] [] []
    rfl rfl rfl rfl rfl rfl rfl rfl rfl rfl rfl rfl
  refine ⟨hbuild, ?_, ?_⟩
  · exact c6_empty_schema_hard_failure.2.1 envC6 [] "What is in this model?" "w" "d"
      false false none none "token" emptySchemaMsg rfl rfl hbuild
  · exact c6_empty_schema_hard_failure.2.2 envC6 cacheBlankC6 "What is in this model?"
      "w" "d" false false none none "token" " " emptySchemaMsg rfl rfl rfl rfl hbuild

/-- One sampling step either keeps the accumulator or appends exactly one
call with limit 60. -/
theorem sampleTargetStep_cases (env : Env) (acc : List String × List SampleCall)
    (t : Json) (r : List String × List SampleCall)
    (h : sampleTargetStep env acc t = .ok r) :
    r.2 = acc.2 ∨ ∃ tb c, r.2 = acc.2 ++ [(tb, c, 60)] := by
  unfold sampleTargetStep at h
  simp only [] at h
  repeat' split at h
  all_goals first
    | (cases h; exact Or.inl rfl)
    | (cases h; exact Or.inr ⟨_, _, rfl⟩)
    | simp at h

/-- The sampling fold grows the trace by at most the number of targets
folded over, and every recorded call carries limit 60. -/
theorem sampleTargets_fold_trace (env : Env) :
    ∀ (l : List Json) (acc r : List String × List SampleCall),
      List.foldlM (sampleTargetStep env) acc l = .ok r →
      r.2.length ≤ acc.2.length + l.length ∧
      (∀ c ∈ r.2, c ∈ acc.2 ∨ c.2.2 = 60) := by
  intro l
  induction l with
  | nil =>
    intro acc r h
    simp only [List.foldlM, pure, Except.pure] at h
    cases h
    exact ⟨by simp, fun c hc => Or.inl hc⟩
  | cons t ts ih =>
    intro acc r h
    simp only [List.foldlM] at h
    rcases hstep : sampleTargetStep env acc t with e | acc'
    · rw [hstep] at h
      simp [Bind.bind, Except.bind] at h
    · rw [hstep] at h
      simp only [Bind.bind, Except.bind] at h
      obtain ⟨h1, h2⟩ := ih acc' r h
      rcases sampleTargetStep_cases env acc t acc' hstep with hsame | ⟨tb, c, happ⟩
      · rw [hsame] at h1 h2
        refine ⟨by simp at h1 ⊢; omega, h2⟩
      · rw [happ] at h1 h2
        refine ⟨by simp [List.length_append] at h1 ⊢; omega, ?_⟩
        intro c' hc'
        rcases h2 c' hc' with hmem | h60
        · rcases List.mem_append.mp hmem with hm | hm
          · exact Or.inl hm
          · simp at hm
            subst hm
            exact Or.inr rfl
        · exact Or.inr h60

/-- The trace of `sampleTargets` has at most three entries, each a limit-60
sampling call. -/
theorem sampleTargets_trace (env : Env) (ts : List Json)
    (collected : List String) (trace : List SampleCall)
    (h : sampleTargets env ts = .ok (collected, trace)) :
    trace.length ≤ 3 ∧ ∀ c ∈ trace, c.2.2 = 60 := by
  unfold sampleTargets at h
  obtain ⟨h1, h2⟩ := sampleTargets_fold_trace env (ts.take 3) ([], []) (collected, trace) h
  constructor
  · have := List.length_take_le 3 ts
    simp at h1
    omega
  · intro c hc
    rcases h2 c hc with hmem | h60
    · simp at hmem
    · exact h60

/-- The matching step returns its trace unchanged. -/
theorem resolveMatch_trace (env : Env) (uv rq : String) (uniq : List String)
    (tr : List SampleCall) (r : (String × String) × List SampleCall)
    (h : resolveMatch env uv rq uniq tr = .ok r) : r.2 = tr := by
  unfold resolveMatch at h
  simp only [] at h
  repeat' split at h
  all_goals first
    | (cases h; rfl)
    | simp at h

/-- The dedup-and-cap loop keeps the pool duplicate-free and never lets it
exceed 120 entries. -/
theorem dedupCapAux_bounds :
    ∀ (l uniq : List String), uniq.Nodup → uniq.length < 120 →
      (dedupCapAux l uniq).length ≤ 120 ∧ (dedupCapAux l uniq).Nodup := by
  intro l
  induction l with
  | nil =>
    intro uniq hnd hlt
    exact ⟨by simp [dedupCapAux]; omega, by simpa [dedupCapAux] using hnd⟩
  | cons v rest ih =>
    intro uniq hnd hlt
    simp only [dedupCapAux]
    by_cases hmem : uniq.contains v
    · rw [if_pos hmem, if_neg (by omega)]
      exact ih uniq hnd hlt
    · rw [if_neg hmem]
      have hnd' : (uniq ++ [v]).Nodup := by
        simp [List.nodup_append, hnd]
        intro hmem2
        exact hmem (by simpa using hmem2)
      by_cases hfull : 120 ≤ (uniq ++ [v]).length
      · rw [if_pos hfull]
        refine ⟨?_, hnd'⟩
        simp [List.length_append] at hfull ⊢
        omega
      · rw [if_neg hfull]
        refine ih _ hnd' ?_
        simp [List.length_append] at hfull ⊢
        omega

/-- Every result of the resolver tail carries at most three limit-60
sampling calls. -/
theorem resolveAfterPlan_trace (env : Env) (uv rq : String) (ts : List Json)
    (r : (String × String) × List SampleCall)
    (h : resolveAfterPlan env uv rq ts = .ok r) :
    r.2.length ≤ 3 ∧ ∀ c ∈ r.2, c.2.2 = 60 := by
  unfold resolveAfterPlan at h
  rcases hsam : sampleTargets env ts with e | p
  · rw [hsam] at h
    simp at h
  · rw [hsam] at h
    obtain ⟨collected, trace⟩ := p
    obtain ⟨hlen, h60⟩ := sampleTargets_trace env ts collected trace hsam
    simp only [] at h
    split at h
    · cases h
      exact ⟨hlen, h60⟩
    · have htr := resolveMatch_trace env uv rq (dedupCap collected) trace r h
      rw [htr]
      exact ⟨hlen, h60⟩

/-- C7: during value resolution at most 3 `(table, column)` targets are
sampled and every sampling call requests at most 60 distinct values (the
built query asks `TOPN(60, ...)`); the merged candidate pool is
deduplicated and capped at 120 values; and when no candidates were sampled
the rewritten question is returned unchanged with an empty note. -/
theorem c7_sampling_caps :
    (∀ (env : Env) (schema question : String)
       (r : (String × String) × List SampleCall),
      resolve_user_value_if_needed env schema question = .ok r →
      r.2.length ≤ 3 ∧ ∀ c ∈ r.2, c.2.2 = 60) ∧
    (∀ l : List String, (dedupCap l).length ≤ 120 ∧ (dedupCap l).Nodup) ∧
    (∀ (env : Env) (uv rq : String) (ts : List Json)
       (collected : List String) (trace : List SampleCall),
      sampleTargets env ts = .ok (collected, trace) →
      dedupCap collected = [] →
      resolveAfterPlan env uv rq ts = .ok ((rq, ""), trace)) ∧
    containsStr (sampleDaxQuery "Customer" "Name" 60) "TOPN(\n    60," = true := by
  refine ⟨?_, ?_, ?_, by rfl⟩
  · intro env schema question r h
    unfold resolve_user_value_if_needed at h
    repeat'
      first
        | exact resolveAfterPlan_trace _ _ _ _ _ h
        | (cases h; exact ⟨by simp, by simp⟩)
        | simp at h
        | split at h
  · intro l
    exact dedupCapAux_bounds l [] (by simp) (by simp)
  · intro env uv rq ts collected trace hsam hded
    unfold resolveAfterPlan
    rw [hsam]
    simp [hded]

/-- Resolution-planning output for the typo-resolution scenario. -/
def planTextC7 : String :=
  "\x7b\"need_resolution\": true, \"targets\": [\x7b\"table\": \"Customer\", \"column\": \"Name\"\x7d], \"user_value\": \"Jo Janx\", \"rewrite_question\": \"show orders for Jo Janx\"\x7d"

/-- Matching output resolving the typo to the sampled value. -/
def resTextC7 : String := "\x7b\"resolved\": \"JO-JanX\", \"alternatives\": []\x7d"

/-- Parsed form of `planTextC7`. -/
def planObjC7 : Json :=
  .obj [("need_resolution", .bool true),
        ("targets", .arr [.obj [("table", .str "Customer"), ("column", .str "Name")]]),
        ("user_value", .str "Jo Janx"),
        ("rewrite_question", .str "show orders for Jo Janx")]

/-- Parsed form of `resTextC7`. -/
def resObjC7 : Json :=
  .obj [("resolved", .str "JO-JanX"), ("alternatives", .arr [])]

/-- A `json.loads` oracle consistent with real JSON parsing on the strings
this fixture feeds it. -/
def loadsC7 : String → Option Json := fun t =>
  if t == planTextC7 then some planObjC7
  else if t == resTextC7 then some resObjC7
  else none

/-- Sampled rows for the typo-resolution scenario. -/
def rowsC7 : List Row :=
  [[("value", Json.str "JO-JanX")], [("value", Json.str "Acme Co")]]

/-- Live-source response with two sampled customer names. -/
def respC7 : DaxResp :=
  { results := some [{ tables := some [{ rows := some rowsC7 }] }] }

/-- Environment for the full typo-resolution scenario: the sampling query on
`Customer[Name]` returns two values and the matcher resolves the typo. -/
def envC7 : Env :=
  { loads := loadsC7
    getToken := .ok "token"
    execQuery := fun q =>
      if q == sampleDaxQuery "Customer" "Name" 60 then .ok respC7
      else .error "unexpected query"
    execAttempt := fun _ _ => .error "not used"
    valPlanLLM := fun _ _ => planTextC7
    valResolveLLM := fun _ _ => resTextC7
    planLLM := fun _ _ => ""
    daxLLM := fun _ _ => ""
    fixLLM := fun _ _ _ _ => ""
    answerSchemaLLM := fun _ _ _ => "schema answer"
    answerRowsLLM := fun _ _ _ _ => "rows answer" }

/-- Environment whose sampling queries all fail, so no candidates arrive. -/
def envC7e : Env :=
  { envC7 with execQuery := fun _ => .error "sampling failed" }

/-- A single valid target list used by the no-candidates witness. -/
def targetsC7 : List Json :=
  [.obj [("table", .str "Customer"), ("column", .str "Name")]]

/-- Witness for C7: on the concrete typo-resolution fixture the resolver
performs exactly one limit-60 sampling call; the pool builder respects its
bounds on a concrete list; and with failing sampling the rewrite comes back
unchanged with an empty note while the call is still recorded. -/
theorem c7_sampling_caps_witness :
    ((("show orders for JO-JanX", "Interpreting 'Jo Janx' as 'JO-JanX'."),
        ([("Customer", "Name", 60)] : List SampleCall)).2.length ≤ 3 ∧
      ∀ c ∈ ((("show orders for JO-JanX", "Interpreting 'Jo Janx' as 'JO-JanX'."),
        ([("Customer", "Name", 60)] : List SampleCall))).2, c.2.2 = 60) ∧
    ((dedupCap ["a", "b", "a", "c"]).length ≤ 120 ∧ (dedupCap ["a", "b", "a", "c"]).Nodup) ∧
    resolveAfterPlan envC7e "Jo Janx" "show orders for Jo Janx" targetsC7
      = .ok (("show orders for Jo Janx", ""), [("Customer", "Name", 60)]) :=
  ⟨c7_sampling_caps.1 envC7 schemaTextCols "show orders for Jo Janx"
      ((("show orders for JO-JanX", "Interpreting 'Jo Janx' as 'JO-JanX'."),
        [("Customer", "Name", 60)])) (by rfl),
   c7_sampling_caps.2.1 ["a", "b", "a", "c"],
   c7_sampling_caps.2.2.1 envC7e "Jo Janx" "show orders for Jo Janx" targetsC7
     [] [("Customer", "Name", 60)] (by rfl) rfl⟩

/-- C8: the matching step's three outcomes. When the model returns a
confident resolved value (a non-blank string), the suspected user value is
substituted case-insensitively in the rewritten question when it occurs
there, else the resolved value is appended parenthetically, and the note is
"Interpreting 'X' as 'Y'."; when only near-miss alternatives come back, the
question is unchanged and the note lists at most the first 3 alternatives;
when neither, the rewrite is returned with an empty note. -/
theorem c8_value_substitution :
    (∀ (env : Env) (uv rq : String) (uniq : List String) (tr : List SampleCall)
       (fs : List (String × Json)) (rs : String),
      parse_json_maybe env.loads (env.valResolveLLM uv
          ("[" ++ String.intercalate ", " (uniq.map (fun v => "\"" ++ v ++ "\"")) ++ "]"))
        = .obj fs →
      jget (.obj fs) "resolved" = .ok (.str rs) →
      rs.pyStrip.isEmpty = false →
      uv.isEmpty = false →
      containsStr rq.pyLower uv.pyLower = true →
      resolveMatch env uv rq uniq tr
        = .ok ((ciReplaceAll rq uv rs.pyStrip,
                "Interpreting '" ++ uv ++ "' as '" ++ rs.pyStrip ++ "'."), tr)) ∧
    (∀ (env : Env) (uv rq : String) (uniq : List String) (tr : List SampleCall)
       (fs : List (String × Json)) (rs : String),
      parse_json_maybe env.loads (env.valResolveLLM uv
          ("[" ++ String.intercalate ", " (uniq.map (fun v => "\"" ++ v ++ "\"")) ++ "]"))
        = .obj fs →
      jget (.obj fs) "resolved" = .ok (.str rs) →
      rs.pyStrip.isEmpty = false →
      containsStr rq.pyLower uv.pyLower = false →
      resolveMatch env uv rq uniq tr
        = .ok ((rq ++ " (value: " ++ rs.pyStrip ++ ")",
                "Interpreting '" ++ uv ++ "' as '" ++ rs.pyStrip ++ "'."), tr)) ∧
    (∀ (env : Env) (uv rq : String) (uniq : List String) (tr : List SampleCall)
       (fs : List (String × Json)) (as' : List Json) (strs : List String),
      parse_json_maybe env.loads (env.valResolveLLM uv
          ("[" ++ String.intercalate ", " (uniq.map (fun v => "\"" ++ v ++ "\"")) ++ "]"))
        = .obj fs →
      jget (.obj fs) "resolved" = .ok .null →
      jget (.obj fs) "alternatives" = .ok (.arr as') →
      as'.isEmpty = false →
      (as'.take 3).mapM jAsStr = .ok strs →
      resolveMatch env uv rq uniq tr
        = .ok ((rq, "I found similar values for '" ++ uv ++ "': "
                ++ String.intercalate ", " strs
                ++ ". If you meant one of these, tell me."), tr) ∧
      (as'.take 3).length ≤ 3) ∧
    (∀ (env : Env) (uv rq : String) (uniq : List String) (tr : List SampleCall)
       (fs : List (String × Json)) (aJv : Json),
      parse_json_maybe env.loads (env.valResolveLLM uv
          ("[" ++ String.intercalate ", " (uniq.map (fun v => "\"" ++ v ++ "\"")) ++ "]"))
        = .obj fs →
      jget (.obj fs) "resolved" = .ok .null →
      jget (.obj fs) "alternatives" = .ok aJv →
      pyOr aJv (.arr []) = .arr [] →
      resolveMatch env uv rq uniq tr = .ok ((rq, ""), tr)) := by
  refine ⟨?_, ?_, ?_, ?_⟩
  · intro env uv rq uniq tr fs rs hparse hr hrs huv hcont
    unfold resolveMatch
    simp only [hparse, hr]
    rcases hfind : List.find? (fun p => p.1 == "alternatives") fs with _ | p <;>
      simp [jget, hfind, hrs, huv, hcont]
  · intro env uv rq uniq tr fs rs hparse hr hrs hcont
    unfold resolveMatch
    simp only [hparse, hr]
    rcases hfind : List.find? (fun p => p.1 == "alternatives") fs with _ | p <;>
      simp [jget, hfind, hrs, hcont]
  · intro env uv rq uniq tr fs as' strs hparse hr halts hne hmap
    refine ⟨?_, by simp [List.length_take]⟩
    unfold resolveMatch
    simp only [List.mapM] at hmap
    simp only [hparse, hr, halts]
    simp [pyOr, jtruthy, hne, hmap]
  · intro env uv rq uniq tr fs aJv hparse hr halts hpy
    unfold resolveMatch
    simp only [hparse, hr, halts]
    simp [hpy]

/-- Matching output returning only near-miss alternatives. -/
def altTextC8 : String :=
  "\x7b\"resolved\": null, \"alternatives\": [\"JO-JanX\", \"Jon Jones\"]\x7d"

/-- Parsed form of `altTextC8`. -/
def altObjC8 : Json :=
  .obj [("resolved", .null), ("alternatives", .arr [.str "JO-JanX", .str "Jon Jones"])]

/-- Environment whose matcher returns only alternatives. -/
def envC8alt : Env :=
  { envC7 with loads := fun t => if t == altTextC8 then some altObjC8 else none
               valResolveLLM := fun _ _ => altTextC8 }

/-- Witness for C8 covering the confident-substitution, alternatives, and
neither cases at concrete fixtures. -/
theorem c8_value_substitution_witness :
    resolveMatch envC7 "Jo Janx" "show orders for Jo Janx" ["JO-JanX", "Acme Co"] []
      = .ok (("show orders for JO-JanX", "Interpreting 'Jo Janx' as 'JO-JanX'."), []) ∧
    (resolveMatch envC8alt "Jo Janx" "show orders for Jo Janx" ["JO-JanX", "Jon Jones"] []
      = .ok (("show orders for Jo Janx",
          "I found similar values for 'Jo Janx': JO-JanX, Jon Jones. If you meant one of these, tell me."),
          []) ∧
      (([Json.str "JO-JanX", Json.str "Jon Jones"].take 3)).length ≤ 3) ∧
    resolveMatch envC5 "Jo Janx" "show orders" ["JO-JanX"] [] = .ok (("show orders", ""), []) :=
  ⟨c8_value_substitution.1 envC7 "Jo Janx" "show orders for Jo Janx" ["JO-JanX", "Acme Co"]
      [] [("resolved", .str "JO-JanX"), ("alternatives", .arr [])] "JO-JanX"
      (by rfl) rfl rfl rfl (by rfl),
   c8_value_substitution.2.2.1 envC8alt "Jo Janx" "show orders for Jo Janx"
      ["JO-JanX", "Jon Jones"] []
      [("resolved", .null), ("alternatives", .arr [.str "JO-JanX", .str "Jon Jones"])]
      [.str "JO-JanX", .str "Jon Jones"] ["JO-JanX", "Jon Jones"]
      (by rfl) rfl rfl rfl (by rfl),
   c8_value_substitution.2.2.2 envC5 "Jo Janx" "show orders" ["JO-JanX"] [] [] .null
      (by rfl) rfl rfl rfl⟩

/-- C9: relational query extraction accepts either a fenced code block or
bare text starting at the first keyword occurrence (a SQL statement keyword
matched case-insensitively and followed by a word boundary, per the source
regex `(SELECT|WITH|INSERT|UPDATE|DELETE|CREATE|ALTER|DROP)\b`); and when
no SQL is extractable, `run_query` returns the raw model text unchanged for
every database handle — no execution and no exception. -/
theorem c9_sql_extraction :
    (∀ (t s : String), extractFenced "sql" t = some s →
      extract_sql_from_text t = some s) ∧
    (∀ (t : String) (suf : List Char), extractFenced "sql" t = none →
      sqlKwSearchAux t.toList = some suf →
      extract_sql_from_text t = some (String.mk suf).pyStrip) ∧
    (∀ t : String, extract_sql_from_text t = none →
      ∀ dbRun : String → Except PyErr String, run_query dbRun t = t) ∧
    extract_sql_from_text "Here you go:\n```sql\nSELECT * FROM users\n```"
      = some "SELECT * FROM users" ∧
    extract_sql_from_text "Sure: SELECT id FROM t WHERE x = 1"
      = some "SELECT id FROM t WHERE x = 1" ∧
    extract_sql_from_text "I cannot answer your question." = none := by
  refine ⟨?_, ?_, ?_, by rfl, by rfl, by rfl⟩
  · intro t s h
    unfold extract_sql_from_text
    rw [h]
  · intro t suf h1 h2
    unfold extract_sql_from_text
    rw [h1, h2]
  · intro t h dbRun
    unfold run_query
    rw [h]
    simp
    intro hcontra
    exact absurd hcontra (by decide)

/-- Witness for C9 at concrete inputs: a fenced reply, a bare keyword reply,
and a non-SQL reply passed through `run_query` unchanged even when the
database handle would fail. -/
theorem c9_sql_extraction_witness :
    extract_sql_from_text "```sql\nSELECT 1\n```" = some "SELECT 1" ∧
    extract_sql_from_text "Try this query: DELETE FROM logs WHERE old = 1"
      = some "DELETE FROM logs WHERE old = 1" ∧
    run_query (fun _ => .error (pyEx "connection refused"))
      "I cannot answer your question." = "I cannot answer your question." :=
  ⟨c9_sql_extraction.1 "```sql\nSELECT 1\n```" "SELECT 1" (by rfl),
   c9_sql_extraction.2.1 "Try this query: DELETE FROM logs WHERE old = 1"
     "DELETE FROM logs WHERE old = 1".toList (by rfl) (by rfl),
   c9_sql_extraction.2.2.1 "I cannot answer your question." (by rfl)
     (fun _ => .error (pyEx "connection refused"))⟩

/-- C10 (amended): `chat_with_db` is total — it returns either the try-block
result or the ERROR dictionary, never propagating an exception; whenever
the try block fails (database connection, schema retrieval, or a model call
in the main chain) the result has `action = "ERROR"`, empty `sql_attempts`,
empty `final_sql` and a non-null error; but a failure of the auxiliary
second SQL-generation call (used only to populate `sql_attempts`) is
swallowed by its bare `except`: the result then has `action = "DESCRIBE"`,
empty `sql_attempts`, empty `final_sql` and a null error. -/
theorem c10_error_mapping_amended :
    (∀ (dbenv : DbEnv) (question database_type host : String) (port : Int)
       (database username password : String) (ctre : Bool) (ctr : Option String),
      (∃ r, chatTry dbenv question database_type host port database username password
          ctre ctr = .ok r ∧
        chat_with_db dbenv question database_type host port database username password
          ctre ctr = r) ∨
      (∃ e, chatTry dbenv question database_type host port database username password
          ctre ctr = .error e ∧
        chat_with_db dbenv question database_type host port database username password
          ctre ctr =
          { answer := "An error occurred while processing your question: "
              ++ buildDetailedError host port e
            resolution_note := ""
            action := "ERROR"
            sql_attempts := []
            final_sql := ""
            error := some (buildDetailedError host port e) })) ∧
    (∀ (dbenv : DbEnv) (question database_type host : String) (port : Int)
       (database username password : String) (ctre : Bool) (ctr : Option String)
       (e : PyErr),
      chatTry dbenv question database_type host port database username password
        ctre ctr = .error e →
      (chat_with_db dbenv question database_type host port database username password
        ctre ctr).action = "ERROR" ∧
      (chat_with_db dbenv question database_type host port database username password
        ctre ctr).sql_attempts = [] ∧
      (chat_with_db dbenv question database_type host port database username password
        ctre ctr).final_sql = "" ∧
      (chat_with_db dbenv question database_type host port database username password
        ctre ctr).error ≠ none) ∧
    (∀ (dbenv : DbEnv) (question database_type host : String) (port : Int)
       (database username password : String) (ctre : Bool) (ctr : Option String)
       (schemaA schemaB sC sqlText answer : String) (e : PyErr),
      connectBlock dbenv host port database = .ok () →
      getSchemaCall dbenv host port database 1 = .ok schemaA →
      dbenv.llmSql 0 schemaA question = .ok sqlText →
      getSchemaCall dbenv host port database 2 = .ok schemaB →
      dbenv.llmAnswer (toneOf ctre ctr defaultSqlTone) schemaB question sqlText
        (run_query dbenv.dbRun sqlText) = .ok answer →
      getSchemaCall dbenv host port database 3 = .ok sC →
      dbenv.llmSql 1 sC question = .error e →
      chat_with_db dbenv question database_type host port database username password
        ctre ctr =
        { answer := answer.pyStrip
          resolution_note := ""
          action := "DESCRIBE"
          sql_attempts := []
          final_sql := ""
          error := none }) := by
  refine ⟨?_, ?_, ?_⟩
  · intro dbenv question database_type host port database username password ctre ctr
    rcases h : chatTry dbenv question database_type host port database username password
      ctre ctr with e | r
    · right
      refine ⟨e, rfl, ?_⟩
      unfold chat_with_db
      rw [h]
    · left
      refine ⟨r, rfl, ?_⟩
      unfold chat_with_db
      rw [h]
  · intro dbenv question database_type host port database username password ctre ctr e h
    unfold chat_with_db
    rw [h]
    simp
  · intro dbenv question database_type host port database username password ctre ctr
      schemaA schemaB sC sqlText answer e hconn h1 h2 h3 h4 h5 h6
    unfold chat_with_db chatTry auxSqlAttempt
    simp [hconn, h1, h2, h3, h4, h5, h6]
    decide

/-- Environment in which everything succeeds except the auxiliary second
SQL-generation model call. -/
def dbenvC10 : DbEnv :=
  { fromUri := .ok ()
    tableInfo := fun _ => .ok "CREATE TABLE t (id INT)"
    llmSql := fun i _ _ =>
      if i == 0 then .ok "SELECT id FROM t" else .error (pyEx "rate limit")
    llmAnswer := fun _ _ _ _ _ => .ok "There is one table."
    dbRun := fun _ => .ok "[(1,)]" }

/-- C10 (counterexample): a model-call failure (the auxiliary second
SQL-generation call) is NOT mapped to `action = "ERROR"` with a non-null
error: the pipeline swallows it and returns `action = "DESCRIBE"` with
`error = none`, so the claim as stated is false on the code. -/
theorem c10_counterexample :
    chat_with_db dbenvC10 "How many tables?" "postgresql" "dbhost" 5432 "mydb"
        "user" "pass" false none =
      { answer := "There is one table."
        resolution_note := ""
        action := "DESCRIBE"
        sql_attempts := []
        final_sql := ""
        error := none } := by
  rfl

/-- Environment whose database connection fails outright. -/
def dbenvC10f : DbEnv :=
  { fromUri := .error { ty := "OperationalError", msg := "connection refused", tb := "tb" }
    tableInfo := fun _ => .error (pyEx "unused")
    llmSql := fun _ _ _ => .error (pyEx "unused")
    llmAnswer := fun _ _ _ _ _ => .error (pyEx "unused")
    dbRun := fun _ => .error (pyEx "unused") }

/-- Witness for the amended C10 theorem: a failing connection is mapped to
the ERROR shape with a non-null error, and the swallowed auxiliary failure
yields the DESCRIBE shape with a null error. -/
theorem c10_error_mapping_amended_witness :
    ((chat_with_db dbenvC10f "q" "postgresql" "dbhost" 5432 "mydb" "user" "pass"
        false none).action = "ERROR" ∧
      (chat_with_db dbenvC10f "q" "postgresql" "dbhost" 5432 "mydb" "user" "pass"
        false none).sql_attempts = [] ∧
      (chat_with_db dbenvC10f "q" "postgresql" "dbhost" 5432 "mydb" "user" "pass"
        false none).final_sql = "" ∧
      (chat_with_db dbenvC10f "q" "postgresql" "dbhost" 5432 "mydb" "user" "pass"
        false none).error ≠ none) ∧
    chat_with_db dbenvC10 "How many tables?" "postgresql" "dbhost" 5432 "mydb"
        "user" "pass" false none =
      { answer := "There is one table."
        resolution_note := ""
        action := "DESCRIBE"
        sql_attempts := []
        final_sql := ""
        error := none } :=
  ⟨c10_error_mapping_amended.2.1 dbenvC10f "q" "postgresql" "dbhost" 5432 "mydb"
      "user" "pass" false none
      (pyEx "Connection to database at 'dbhost:5432' was refused or timed out. Please check if the database server is running and the port is correct.")
      (by rfl),
   c10_error_mapping_amended.2.2 dbenvC10 "How many tables?" "postgresql" "dbhost" 5432
      "mydb" "user" "pass" false none
      "CREATE TABLE t (id INT)" "CREATE TABLE t (id INT)" "CREATE TABLE t (id INT)"
      "SELECT id FROM t" "There is one table." (pyEx "rate limit")
      (by rfl) rfl rfl rfl (by rfl) rfl rfl⟩
